import Mathlib

/-!
Verification development for the builtin DDS Security cryptographic core
(AES-GCM-GMAC profile): the crypto key factory registry
(crypto_key_factory.rs), the builtin wire types (builtin_types.rs) and the
RTPS DATA submessage codec (data.rs).

Modelling conventions:
* Rust HashMap tables are modelled as association lists over Nat keys
  (insert overwrites, lookup returns the most recent binding);
* byte buffers are lists of naturals;
* Rust panics (out-of-range slicing, unwrap of None, the unimplemented
  macro) are modelled as explicit failure values;
* fallible operations return Except values.
-/

/-- Association-list model of a Rust HashMap with Nat keys. -/
abbrev MapNat (β : Type) := List (Nat × β)

/-- HashMap::get. -/
def mfind? {β : Type} : MapNat β → Nat → Option β
  | [], _ => none
  | (k, v) :: rest, k' => if k = k' then some v else mfind? rest k'

/-- HashMap::remove (dropping the returned value). -/
def merase {β : Type} : MapNat β → Nat → MapNat β
  | [], _ => []
  | (k, v) :: rest, k' => if k = k' then merase rest k' else (k, v) :: merase rest k'

/-- HashMap::insert (dropping the returned previous value). -/
def minsert {β : Type} (m : MapNat β) (k : Nat) (v : β) : MapNat β :=
  (k, v) :: merase m k

theorem mfind?_merase {β : Type} (m : MapNat β) (k k' : Nat) :
    mfind? (merase m k) k' = if k' = k then none else mfind? m k' := by
  induction m with
  | nil => by_cases h : k' = k <;> simp [merase, mfind?, h]
  | cons kv rest ih =>
    obtain ⟨a, v⟩ := kv
    by_cases hak : a = k <;> by_cases hak' : a = k' <;>
      simp_all [merase, mfind?]

theorem mfind?_minsert_self {β : Type} (m : MapNat β) (k : Nat) (v : β) :
    mfind? (minsert m k v) k = some v := by
  simp [minsert, mfind?]

theorem mfind?_minsert {β : Type} (m : MapNat β) (k k' : Nat) (v : β) :
    mfind? (minsert m k v) k' = if k' = k then some v else mfind? m k' := by
  by_cases h : k' = k
  · subst h; simp [minsert, mfind?]
  · have h' : ¬ k = k' := fun e => h e.symm
    simp [minsert, mfind?, h', h, mfind?_merase]

/-! ## Basic security types (builtin_types.rs and spec section 3) -/

/-- SecurityError from the security module: an error value carrying a
human-readable message. -/
structure SecurityError where
  msg : String
deriving DecidableEq

/-- A (name, value) string property, as used in participant/datawriter
property lists. -/
structure Property where
  name : String
  value : String
deriving DecidableEq

/-- Valid values for CryptoTransformKind, from builtin_types.rs. -/
inductive BuiltinCryptoTransformationKind
  | CRYPTO_TRANSFORMATION_KIND_NONE
  | CRYPTO_TRANSFORMATION_KIND_AES128_GMAC
  | CRYPTO_TRANSFORMATION_KIND_AES128_GCM
  | CRYPTO_TRANSFORMATION_KIND_AES256_GMAC
  | CRYPTO_TRANSFORMATION_KIND_AES256_GCM
deriving DecidableEq

open BuiltinCryptoTransformationKind

/-- The 4-octet wire tag of a transformation kind
(From BuiltinCryptoTransformationKind for CryptoTransformKind). -/
def transformationKindTag : BuiltinCryptoTransformationKind → List Nat
  | CRYPTO_TRANSFORMATION_KIND_NONE => [0, 0, 0, 0]
  | CRYPTO_TRANSFORMATION_KIND_AES128_GMAC => [0, 0, 0, 1]
  | CRYPTO_TRANSFORMATION_KIND_AES128_GCM => [0, 0, 0, 2]
  | CRYPTO_TRANSFORMATION_KIND_AES256_GMAC => [0, 0, 0, 3]
  | CRYPTO_TRANSFORMATION_KIND_AES256_GCM => [0, 0, 0, 4]

/-- TryFrom CryptoTransformKind for BuiltinCryptoTransformationKind:
unknown tags produce an error. -/
def transformationKindFromTag (tag : List Nat) :
    Except SecurityError BuiltinCryptoTransformationKind :=
  match tag with
  | [0, 0, 0, 0] => Except.ok CRYPTO_TRANSFORMATION_KIND_NONE
  | [0, 0, 0, 1] => Except.ok CRYPTO_TRANSFORMATION_KIND_AES128_GMAC
  | [0, 0, 0, 2] => Except.ok CRYPTO_TRANSFORMATION_KIND_AES128_GCM
  | [0, 0, 0, 3] => Except.ok CRYPTO_TRANSFORMATION_KIND_AES256_GMAC
  | [0, 0, 0, 4] => Except.ok CRYPTO_TRANSFORMATION_KIND_AES256_GCM
  | _ => Except.error (SecurityError.mk ("Invalid CryptoTransformKind"))

/-- Modelled from the spec: key length of a transformation kind, empty for
NONE, 16 bytes for AES128, 32 bytes for AES256 (used by the keygen
collaborator from aes_gcm_gmac, which is not part of the given sources). -/
def transformationKindKeyLength : BuiltinCryptoTransformationKind → Nat
  | CRYPTO_TRANSFORMATION_KIND_NONE => 0
  | CRYPTO_TRANSFORMATION_KIND_AES128_GMAC => 16
  | CRYPTO_TRANSFORMATION_KIND_AES128_GCM => 16
  | CRYPTO_TRANSFORMATION_KIND_AES256_GMAC => 32
  | CRYPTO_TRANSFORMATION_KIND_AES256_GCM => 32

/-- Modelled from the spec: keygen from aes_gcm_gmac (missing from the
given sources) draws a fresh key whose length matches the transformation
kind; the spec only constrains the length, so the model is deterministic. -/
def keygen (kind : BuiltinCryptoTransformationKind) : List Nat :=
  List.replicate (transformationKindKeyLength kind) 0

/-- KeyMaterial_AES_GCM_GMAC from builtin_types.rs. Key ids are 32-bit
integers modelled as Nat; octet vectors are lists of naturals. -/
structure KeyMaterial_AES_GCM_GMAC where
  transformation_kind : BuiltinCryptoTransformationKind
  master_salt : List Nat
  sender_key_id : Nat
  master_sender_key : List Nat
  receiver_specific_key_id : Nat
  master_receiver_specific_key : List Nat
deriving DecidableEq

/-- Modelled from the spec: the key material sequence enum used by the key
factory (its definition lives in the cryptographic_builtin module, outside
the given sources): either a single record, or a pair
(submessage record first, payload record second). -/
inductive KeyMaterialSeq
  | One (k : KeyMaterial_AES_GCM_GMAC)
  | Two (k1 k2 : KeyMaterial_AES_GCM_GMAC)
deriving DecidableEq

/-- Modelled from the spec: the key_material helper of the sequence type
returns the first (submessage) record. -/
def KeyMaterialSeq.keyMaterial : KeyMaterialSeq → KeyMaterial_AES_GCM_GMAC
  | KeyMaterialSeq.One k => k
  | KeyMaterialSeq.Two k _ => k

/-- Modelled from the spec: the add_master_receiver_specific_key helper
attaches a receiver-specific key id and key to the records of the
sequence. -/
def KeyMaterialSeq.addMasterReceiverSpecificKey
    (s : KeyMaterialSeq) (keyId : Nat) (key : List Nat) : KeyMaterialSeq :=
  match s with
  | KeyMaterialSeq.One k =>
      KeyMaterialSeq.One
        { k with receiver_specific_key_id := keyId,
                 master_receiver_specific_key := key }
  | KeyMaterialSeq.Two k1 k2 =>
      KeyMaterialSeq.Two
        { k1 with receiver_specific_key_id := keyId,
                  master_receiver_specific_key := key }
        { k2 with receiver_specific_key_id := keyId,
                  master_receiver_specific_key := key }

/-- The records of a key material sequence as a list. -/
def KeyMaterialSeq.records : KeyMaterialSeq → List KeyMaterial_AES_GCM_GMAC
  | KeyMaterialSeq.One k => [k]
  | KeyMaterialSeq.Two k1 k2 => [k1, k2]

/-! ## Security attribute structures (spec section 6; the Rust definitions
live in the access-control module, outside the given sources) -/

/-- Modelled from the spec: ParticipantSecurityAttributes restricted to the
fields the key factory reads (is_rtps_protected and the 32-bit plugin
bitmask). -/
structure ParticipantSecurityAttributes where
  is_rtps_protected : Bool
  plugin_participant_attributes : Nat
deriving DecidableEq

/-- Modelled from the spec: the parsed
BuiltinPluginParticipantSecurityAttributes bitfield, restricted to the
fields the key factory reads. -/
structure BuiltinPluginParticipantSecurityAttributes where
  is_rtps_encrypted : Bool
  is_rtps_origin_authenticated : Bool
deriving DecidableEq

/-- Modelled from the spec: parsing the 32-bit plugin_participant_attributes
mask (bit 0 is_valid, bit 1 is_rtps_encrypted,
bit 4 is_rtps_origin_authenticated); the parse fails when the is_valid bit
is unset. -/
def parseParticipantPluginAttributes (mask : Nat) :
    Except SecurityError BuiltinPluginParticipantSecurityAttributes :=
  if mask.testBit 0 then
    Except.ok
      { is_rtps_encrypted := mask.testBit 1,
        is_rtps_origin_authenticated := mask.testBit 4 }
  else
    Except.error (SecurityError.mk ("Invalid PluginParticipantSecurityAttributesMask"))

/-- Modelled from the spec: EndpointSecurityAttributes restricted to the
fields the key factory reads. -/
structure EndpointSecurityAttributes where
  is_submessage_protected : Bool
  is_payload_protected : Bool
  plugin_endpoint_attributes : Nat
deriving DecidableEq

/-- Modelled from the spec: the parsed
BuiltinPluginEndpointSecurityAttributes bitfield, restricted to the
fields the key factory reads. -/
structure BuiltinPluginEndpointSecurityAttributes where
  is_submessage_encrypted : Bool
  is_payload_encrypted : Bool
  is_submessage_origin_authenticated : Bool
deriving DecidableEq

/-- Modelled from the spec: parsing the 32-bit plugin_endpoint_attributes
mask (bit 0 is_valid, bit 1 is_submessage_encrypted,
bit 2 is_payload_encrypted, bit 3 is_submessage_origin_authenticated);
the parse fails when the is_valid bit is unset. -/
def parseEndpointPluginAttributes (mask : Nat) :
    Except SecurityError BuiltinPluginEndpointSecurityAttributes :=
  if mask.testBit 0 then
    Except.ok
      { is_submessage_encrypted := mask.testBit 1,
        is_payload_encrypted := mask.testBit 2,
        is_submessage_origin_authenticated := mask.testBit 3 }
  else
    Except.error (SecurityError.mk ("Invalid PluginEndpointSecurityAttributesMask"))

/-- EndpointKind: DataWriter or DataReader. -/
inductive EndpointKind
  | DataWriter
  | DataReader
deriving DecidableEq

/-- EndpointKind::opposite. -/
def EndpointKind.opposite : EndpointKind → EndpointKind
  | EndpointKind.DataWriter => EndpointKind.DataReader
  | EndpointKind.DataReader => EndpointKind.DataWriter

/-- EndpointInfo: a crypto handle paired with an endpoint kind. -/
structure EndpointInfo where
  crypto_handle : Nat
  kind : EndpointKind
deriving DecidableEq

/-! ## The key factory registry state (spec section 3; the struct fields of
CryptographicBuiltin live in the cryptographic_builtin module, outside the
given sources, and are modelled from the spec's table list; the operations
below are translated from crypto_key_factory.rs) -/

/-- Modelled from the spec: the CryptographicBuiltin registry state: the
private handle counter and the eight tables of spec section 3. -/
structure CryptographicBuiltin where
  crypto_handle_counter : Nat
  encode_key_materials : MapNat KeyMaterialSeq
  decode_key_materials : MapNat KeyMaterialSeq
  participant_encrypt_options : MapNat ParticipantSecurityAttributes
  endpoint_encrypt_options : MapNat EndpointSecurityAttributes
  participant_to_endpoint_info : MapNat (List EndpointInfo)
  endpoint_to_participant : MapNat Nat
  matched_remote_endpoint : MapNat (MapNat Nat)
  matched_local_endpoint : MapNat Nat
deriving DecidableEq

/-- The registry with counter 0 and all tables empty. -/
def emptyRegistry : CryptographicBuiltin :=
  { crypto_handle_counter := 0,
    encode_key_materials := [],
    decode_key_materials := [],
    participant_encrypt_options := [],
    endpoint_encrypt_options := [],
    participant_to_endpoint_info := [],
    endpoint_to_participant := [],
    matched_remote_endpoint := [],
    matched_local_endpoint := [] }

/-- generate_crypto_handle_: increment the counter, return its new value. -/
def generate_crypto_handle_ (st : CryptographicBuiltin) :
    Nat × CryptographicBuiltin :=
  let c := st.crypto_handle_counter + 1
  (c, { st with crypto_handle_counter := c })

/-- get_or_generate_matched_remote_endpoint_crypto_handle_: look up the
remote endpoint handle for (local endpoint, remote participant), or
allocate one and record it in endpoint_to_participant,
matched_local_endpoint and matched_remote_endpoint. -/
def get_or_generate_matched_remote_endpoint_crypto_handle_
    (st : CryptographicBuiltin)
    (remote_participant_crypto_handle local_endpoint_crypto_handle : Nat) :
    Nat × CryptographicBuiltin :=
  match (mfind? st.matched_remote_endpoint local_endpoint_crypto_handle).bind
      (fun sub => mfind? sub remote_participant_crypto_handle) with
  | some remote_endpoint_crypto_handle => (remote_endpoint_crypto_handle, st)
  | none =>
    let p := generate_crypto_handle_ st
    let r := p.1
    let st1 := p.2
    let st2 :=
      { st1 with
        endpoint_to_participant :=
          minsert st1.endpoint_to_participant r remote_participant_crypto_handle,
        matched_local_endpoint :=
          minsert st1.matched_local_endpoint r local_endpoint_crypto_handle }
    let st3 :=
      match mfind? st2.matched_remote_endpoint local_endpoint_crypto_handle with
      | some sub =>
        { st2 with
          matched_remote_endpoint :=
            minsert st2.matched_remote_endpoint local_endpoint_crypto_handle
              (minsert sub remote_participant_crypto_handle r) }
      | none =>
        { st2 with
          matched_remote_endpoint :=
            minsert st2.matched_remote_endpoint local_endpoint_crypto_handle
              [(remote_participant_crypto_handle, r)] }
    (r, st3)

/-- is_volatile_: the property list marks a builtin volatile endpoint. -/
def is_volatile_ (properties : List Property) : Bool :=
  match properties.find? (fun p => p.name = "dds.sec.builtin_endpoint_name") with
  | some p =>
      p.value = "BuiltinParticipantVolatileMessageSecureWriter" ||
      p.value = "BuiltinParticipantVolatileMessageSecureReader"
  | none => false

/-- use_256_bit_key_: 256-bit keys unless the keysize property is "128". -/
def use_256_bit_key_ (properties : List Property) : Bool :=
  match properties.find? (fun p => p.name = "dds.sec.crypto.keysize") with
  | some p => !(p.value = "128")
  | none => true

/-- transformation_kind_: the policy matrix selecting among the five
builtin transformation kinds. -/
def transformation_kind_ (is_protected is_encrypted use_256_bit_key : Bool) :
    BuiltinCryptoTransformationKind :=
  match is_protected, is_encrypted, use_256_bit_key with
  | false, _, _ => CRYPTO_TRANSFORMATION_KIND_NONE
  | true, false, false => CRYPTO_TRANSFORMATION_KIND_AES128_GMAC
  | true, false, true => CRYPTO_TRANSFORMATION_KIND_AES256_GMAC
  | true, true, false => CRYPTO_TRANSFORMATION_KIND_AES128_GCM
  | true, true, true => CRYPTO_TRANSFORMATION_KIND_AES256_GCM

/-- generate_key_material_: a key material record with the handle as
sender key id, a fresh sender key, empty salt and no receiver-specific
key. -/
def generate_key_material_ (crypto_handle : Nat)
    (transformation_kind : BuiltinCryptoTransformationKind) :
    KeyMaterial_AES_GCM_GMAC :=
  { transformation_kind := transformation_kind,
    master_salt := [],
    sender_key_id := crypto_handle,
    master_sender_key := keygen transformation_kind,
    receiver_specific_key_id := 0,
    master_receiver_specific_key := [] }

/-- generate_receiver_specific_key_: bind a fresh receiver-specific key of
the first record's kind to the handle when origin authentication is on,
otherwise record the sentinel id 0 with an empty key. -/
def generate_receiver_specific_key_ (key_materials : KeyMaterialSeq)
    (origin_authentication : Bool) (crypto_handle : Nat) : KeyMaterialSeq :=
  if origin_authentication then
    key_materials.addMasterReceiverSpecificKey crypto_handle
      (keygen key_materials.keyMaterial.transformation_kind)
  else
    key_materials.addMasterReceiverSpecificKey 0 []

/-- Modelled from the spec: the insert_encode_key_materials_ helper
(outside the given sources) records the sequence in table 1; the spec's
operation descriptions give it no failure case. -/
def insert_encode_key_materials_ (st : CryptographicBuiltin) (h : Nat)
    (kms : KeyMaterialSeq) : CryptographicBuiltin :=
  { st with encode_key_materials := minsert st.encode_key_materials h kms }

/-- Modelled from the spec: the get_encode_key_materials_ helper (outside
the given sources) looks up table 1, failing for an unknown handle. -/
def get_encode_key_materials_ (st : CryptographicBuiltin) (h : Nat) :
    Except SecurityError KeyMaterialSeq :=
  match mfind? st.encode_key_materials h with
  | some kms => Except.ok kms
  | none =>
      Except.error (SecurityError.mk ("Could not find encode key materials for handle"))

/-- Modelled from the spec: the insert_participant_attributes_ helper
(outside the given sources) records the attributes in table 3. -/
def insert_participant_attributes_ (st : CryptographicBuiltin) (h : Nat)
    (attrs : ParticipantSecurityAttributes) : CryptographicBuiltin :=
  { st with participant_encrypt_options := minsert st.participant_encrypt_options h attrs }

/-- Modelled from the spec: the insert_endpoint_attributes_ helper (outside
the given sources) records the attributes in table 4. -/
def insert_endpoint_attributes_ (st : CryptographicBuiltin) (h : Nat)
    (attrs : EndpointSecurityAttributes) : CryptographicBuiltin :=
  { st with endpoint_encrypt_options := minsert st.endpoint_encrypt_options h attrs }

/-- Modelled from the spec: the insert_endpoint_info_ helper (outside the
given sources) adds the EndpointInfo to the participant's set in table 5. -/
def insert_endpoint_info_ (st : CryptographicBuiltin) (participant : Nat)
    (info : EndpointInfo) : CryptographicBuiltin :=
  match mfind? st.participant_to_endpoint_info participant with
  | some s =>
      let s' := if info ∈ s then s else info :: s
      { st with participant_to_endpoint_info :=
          minsert st.participant_to_endpoint_info participant s' }
  | none =>
      { st with participant_to_endpoint_info :=
          minsert st.participant_to_endpoint_info participant [info] }

/-! ## Key factory operations (crypto_key_factory.rs) -/

/-- register_local_participant: parse the plugin attribute mask, allocate a
handle, build a single-record key sequence and record it together with the
attributes. -/
def register_local_participant (st : CryptographicBuiltin)
    (participant_properties : List Property)
    (participant_security_attributes : ParticipantSecurityAttributes) :
    Except SecurityError Nat × CryptographicBuiltin :=
  match parseParticipantPluginAttributes
      participant_security_attributes.plugin_participant_attributes with
  | Except.error e => (Except.error e, st)
  | Except.ok plugin_attrs =>
    let p := generate_crypto_handle_ st
    let crypto_handle := p.1
    let st1 := p.2
    let kind := transformation_kind_
      participant_security_attributes.is_rtps_protected
      plugin_attrs.is_rtps_encrypted
      (use_256_bit_key_ participant_properties)
    let key_material := generate_key_material_ crypto_handle kind
    let st2 := insert_encode_key_materials_ st1 crypto_handle
      (KeyMaterialSeq.One key_material)
    let st3 := insert_participant_attributes_ st2 crypto_handle
      participant_security_attributes
    (Except.ok crypto_handle, st3)

/-- register_matched_remote_participant: clone the local participant's
encode keys, read its origin-authentication flag, allocate a remote handle
and store the receiver-specific key sequence under it. -/
def register_matched_remote_participant (st : CryptographicBuiltin)
    (local_participant_crypto_handle : Nat) :
    Except SecurityError Nat × CryptographicBuiltin :=
  match get_encode_key_materials_ st local_participant_crypto_handle with
  | Except.error e => (Except.error e, st)
  | Except.ok local_key_materials =>
    match mfind? st.participant_encrypt_options local_participant_crypto_handle with
    | none =>
        (Except.error (SecurityError.mk ("Participant encrypt options not found")), st)
    | some attrs =>
      match parseParticipantPluginAttributes attrs.plugin_participant_attributes with
      | Except.error e => (Except.error e, st)
      | Except.ok plugin_attrs =>
        let is_rtps_origin_authenticated := plugin_attrs.is_rtps_origin_authenticated
        let p := generate_crypto_handle_ st
        let remote_handle := p.1
        let st1 := p.2
        let key_materials := generate_receiver_specific_key_ local_key_materials
          is_rtps_origin_authenticated remote_handle
        let st2 := insert_encode_key_materials_ st1 remote_handle key_materials
        (Except.ok remote_handle, st2)

/-- register_local_datawriter: parse the plugin mask, allocate a handle,
reject volatile endpoints (after the allocation), then build a one- or
two-record key sequence and record attributes and endpoint info. -/
def register_local_datawriter (st : CryptographicBuiltin)
    (participant_crypto : Nat) (datawriter_properties : List Property)
    (datawriter_security_attributes : EndpointSecurityAttributes) :
    Except SecurityError Nat × CryptographicBuiltin :=
  match parseEndpointPluginAttributes
      datawriter_security_attributes.plugin_endpoint_attributes with
  | Except.error e => (Except.error e, st)
  | Except.ok plugin_attrs =>
    let p := generate_crypto_handle_ st
    let h := p.1
    let st1 := p.2
    if is_volatile_ datawriter_properties then
      (Except.error (SecurityError.mk ("register_local_datawriter should not be called for BuiltinParticipantVolatileMessageSecureWriter")), st1)
    else
      let use256 := use_256_bit_key_ datawriter_properties
      let submessage_kind := transformation_kind_
        datawriter_security_attributes.is_submessage_protected
        plugin_attrs.is_submessage_encrypted use256
      let payload_kind := transformation_kind_
        datawriter_security_attributes.is_payload_protected
        plugin_attrs.is_payload_encrypted use256
      let submessage_key_material := generate_key_material_ h submessage_kind
      let q :=
        if submessage_kind = payload_kind then
          (KeyMaterialSeq.One submessage_key_material, st1)
        else
          let p2 := generate_crypto_handle_ st1
          (KeyMaterialSeq.Two submessage_key_material
            (generate_key_material_ p2.1 payload_kind), p2.2)
      let key_materials := q.1
      let st2 := q.2
      let st3 := insert_encode_key_materials_ st2 h key_materials
      let st4 := insert_endpoint_attributes_ st3 h datawriter_security_attributes
      let st5 := insert_endpoint_info_ st4 participant_crypto
        (EndpointInfo.mk h EndpointKind.DataWriter)
      let st6 :=
        { st5 with endpoint_to_participant :=
            minsert st5.endpoint_to_participant h participant_crypto }
      (Except.ok h, st6)

/-- register_local_datareader: like the datawriter registration but with a
single-record sequence from the submessage kind only. -/
def register_local_datareader (st : CryptographicBuiltin)
    (participant_crypto_handle : Nat) (datareader_properties : List Property)
    (datareader_security_attributes : EndpointSecurityAttributes) :
    Except SecurityError Nat × CryptographicBuiltin :=
  match parseEndpointPluginAttributes
      datareader_security_attributes.plugin_endpoint_attributes with
  | Except.error e => (Except.error e, st)
  | Except.ok plugin_attrs =>
    let p := generate_crypto_handle_ st
    let h := p.1
    let st1 := p.2
    if is_volatile_ datareader_properties then
      (Except.error (SecurityError.mk ("register_local_datareader should not be called for BuiltinParticipantVolatileMessageSecureReader")), st1)
    else
      let kind := transformation_kind_
        datareader_security_attributes.is_submessage_protected
        plugin_attrs.is_submessage_encrypted
        (use_256_bit_key_ datareader_properties)
      let st2 := insert_encode_key_materials_ st1 h
        (KeyMaterialSeq.One (generate_key_material_ h kind))
      let st3 := insert_endpoint_attributes_ st2 h datareader_security_attributes
      let st4 := insert_endpoint_info_ st3 participant_crypto_handle
        (EndpointInfo.mk h EndpointKind.DataReader)
      let st5 :=
        { st4 with endpoint_to_participant :=
            minsert st4.endpoint_to_participant h participant_crypto_handle }
      (Except.ok h, st5)

/-- Common body of register_matched_remote_datareader and
register_matched_remote_datawriter, which differ only in the endpoint kind
recorded for the remote endpoint (DataReader for a local writer's match,
DataWriter for a local reader's match). -/
def register_matched_remote_endpoint_common (st : CryptographicBuiltin)
    (local_endpoint_crypto_handle remote_participant_crypto_handle : Nat)
    (remote_kind : EndpointKind) :
    Except SecurityError Nat × CryptographicBuiltin :=
  match get_encode_key_materials_ st local_endpoint_crypto_handle with
  | Except.error e => (Except.error e, st)
  | Except.ok local_key_materials =>
    match mfind? st.endpoint_encrypt_options local_endpoint_crypto_handle with
    | none =>
        (Except.error (SecurityError.mk ("Endpoint encrypt options not found")), st)
    | some attrs =>
      match parseEndpointPluginAttributes attrs.plugin_endpoint_attributes with
      | Except.error e => (Except.error e, st)
      | Except.ok plugin_attrs =>
        let is_submessage_origin_authenticated :=
          plugin_attrs.is_submessage_origin_authenticated
        let p := get_or_generate_matched_remote_endpoint_crypto_handle_ st
          remote_participant_crypto_handle local_endpoint_crypto_handle
        let remote_endpoint_crypto_handle := p.1
        let st1 := p.2
        let st2 := insert_endpoint_info_ st1 remote_participant_crypto_handle
          (EndpointInfo.mk remote_endpoint_crypto_handle remote_kind)
        let st3 :=
          match mfind? st2.endpoint_encrypt_options local_endpoint_crypto_handle with
          | some a => insert_endpoint_attributes_ st2 remote_endpoint_crypto_handle a
          | none => st2
        let key_materials := generate_receiver_specific_key_ local_key_materials
          is_submessage_origin_authenticated remote_endpoint_crypto_handle
        let st4 := insert_encode_key_materials_ st3 remote_endpoint_crypto_handle
          key_materials
        (Except.ok remote_endpoint_crypto_handle, st4)

/-- register_matched_remote_datareader: derive the remote reader entry for
a (local datawriter, remote participant) pair. -/
def register_matched_remote_datareader (st : CryptographicBuiltin)
    (local_datawriter_crypto_handle remote_participant_crypto_handle : Nat) :
    Except SecurityError Nat × CryptographicBuiltin :=
  register_matched_remote_endpoint_common st local_datawriter_crypto_handle
    remote_participant_crypto_handle EndpointKind.DataReader

/-- register_matched_remote_datawriter: derive the remote writer entry for
a (local datareader, remote participant) pair. -/
def register_matched_remote_datawriter (st : CryptographicBuiltin)
    (local_datareader_crypto_handle remote_participant_crypto_handle : Nat) :
    Except SecurityError Nat × CryptographicBuiltin :=
  register_matched_remote_endpoint_common st local_datareader_crypto_handle
    remote_participant_crypto_handle EndpointKind.DataWriter

/-! ## Unregistration (crypto_key_factory.rs) -/

/-- unregister_endpoint_: remove the endpoint's key material and attribute
entries; if it was registered under a participant, drop it from the
participant's endpoint set; if it is a remote endpoint, sever the matched
pair; if it is a local endpoint, cascade to every derived remote endpoint.
The Rust recursion terminates because every recursive step first removes
an entry from endpoint_to_participant; the model makes this explicit with
a fuel parameter (the public operations pass fuel larger than the table,
and every theorem below is proved for all fuel values). -/
def unregister_endpoint_ :
    Nat → CryptographicBuiltin → EndpointInfo → CryptographicBuiltin
  | 0, st, _ => st
  | fuel + 1, st, info =>
    let h := info.crypto_handle
    let st1 :=
      { st with
        encode_key_materials := merase st.encode_key_materials h,
        decode_key_materials := merase st.decode_key_materials h,
        endpoint_encrypt_options := merase st.endpoint_encrypt_options h }
    match mfind? st1.endpoint_to_participant h with
    | none => st1
    | some participant =>
      let st2 :=
        { st1 with endpoint_to_participant := merase st1.endpoint_to_participant h }
      let st3 :=
        match mfind? st2.participant_to_endpoint_info participant with
        | some s =>
            let s' := s.filter (fun i => i ≠ info)
            { st2 with participant_to_endpoint_info :=
                minsert st2.participant_to_endpoint_info participant s' }
        | none => st2
      match mfind? st3.matched_local_endpoint h with
      | some local_handle =>
        let st4 :=
          { st3 with matched_local_endpoint := merase st3.matched_local_endpoint h }
        match mfind? st4.matched_remote_endpoint local_handle with
        | some sub =>
            let sub' := merase sub participant
            { st4 with matched_remote_endpoint :=
                minsert st4.matched_remote_endpoint local_handle sub' }
        | none => st4
      | none =>
        match mfind? st3.matched_remote_endpoint h with
        | some sub =>
          let st4 :=
            { st3 with matched_remote_endpoint := merase st3.matched_remote_endpoint h }
          (sub.map Prod.snd).foldl
            (fun s r => unregister_endpoint_ fuel s
              (EndpointInfo.mk r info.kind.opposite)) st4
        | none => st3

/-- Fuel sufficient for the cascade: one more than the table size. -/
def unregisterFuel (st : CryptographicBuiltin) : Nat :=
  st.endpoint_to_participant.length + 1

/-- unregister_participant: drop the attribute entry, then unregister every
endpoint recorded under the participant. -/
def unregister_participant (st : CryptographicBuiltin)
    (participant_crypto_handle : Nat) :
    Except SecurityError Unit × CryptographicBuiltin :=
  let st1 :=
    { st with participant_encrypt_options :=
        merase st.participant_encrypt_options participant_crypto_handle }
  match mfind? st1.participant_to_endpoint_info participant_crypto_handle with
  | some s =>
    let m' := merase st1.participant_to_endpoint_info participant_crypto_handle
    let st2 := { st1 with participant_to_endpoint_info := m' }
    (Except.ok (), s.foldl (fun acc i => unregister_endpoint_ (unregisterFuel acc) acc i) st2)
  | none => (Except.ok (), st1)

/-- unregister_datawriter. -/
def unregister_datawriter (st : CryptographicBuiltin)
    (datawriter_crypto_handle : Nat) :
    Except SecurityError Unit × CryptographicBuiltin :=
  (Except.ok (), unregister_endpoint_ (unregisterFuel st) st
    (EndpointInfo.mk datawriter_crypto_handle EndpointKind.DataWriter))

/-- unregister_datareader. -/
def unregister_datareader (st : CryptographicBuiltin)
    (datareader_crypto_handle : Nat) :
    Except SecurityError Unit × CryptographicBuiltin :=
  (Except.ok (), unregister_endpoint_ (unregisterFuel st) st
    (EndpointInfo.mk datareader_crypto_handle EndpointKind.DataReader))

/-! ## The public operation alphabet -/

/-- One call to a public registration operation, with its arguments. -/
inductive RegOp
  | regLocalParticipant (props : List Property) (attrs : ParticipantSecurityAttributes)
  | regMatchedRemoteParticipant (localParticipant : Nat)
  | regLocalDatawriter (participant : Nat) (props : List Property)
      (attrs : EndpointSecurityAttributes)
  | regLocalDatareader (participant : Nat) (props : List Property)
      (attrs : EndpointSecurityAttributes)
  | regMatchedRemoteDatareader (localWriter remoteParticipant : Nat)
  | regMatchedRemoteDatawriter (localReader remoteParticipant : Nat)
deriving DecidableEq

/-- Run one registration operation. -/
def applyRegOp (st : CryptographicBuiltin) (op : RegOp) :
    Except SecurityError Nat × CryptographicBuiltin :=
  match op with
  | RegOp.regLocalParticipant props attrs => register_local_participant st props attrs
  | RegOp.regMatchedRemoteParticipant lp => register_matched_remote_participant st lp
  | RegOp.regLocalDatawriter pc props attrs =>
      register_local_datawriter st pc props attrs
  | RegOp.regLocalDatareader pc props attrs =>
      register_local_datareader st pc props attrs
  | RegOp.regMatchedRemoteDatareader lw rp =>
      register_matched_remote_datareader st lw rp
  | RegOp.regMatchedRemoteDatawriter lr rp =>
      register_matched_remote_datawriter st lr rp

/-- One call to any public key factory operation. -/
inductive FactoryOp
  | reg (op : RegOp)
  | unregParticipant (h : Nat)
  | unregDatawriter (h : Nat)
  | unregDatareader (h : Nat)
deriving DecidableEq

/-- Run one public operation, keeping the post-state of the call. -/
def applyFactoryOp (st : CryptographicBuiltin) (op : FactoryOp) :
    CryptographicBuiltin :=
  match op with
  | FactoryOp.reg r => (applyRegOp st r).2
  | FactoryOp.unregParticipant h => (unregister_participant st h).2
  | FactoryOp.unregDatawriter h => (unregister_datawriter st h).2
  | FactoryOp.unregDatareader h => (unregister_datareader st h).2

/-- Run a sequence of public operations from a starting state. -/
def runFactoryOps (st : CryptographicBuiltin) (ops : List FactoryOp) :
    CryptographicBuiltin :=
  ops.foldl applyFactoryOp st

/-! ## Invariant I2 (spec section 3): the matched-endpoint tables agree -/

/-- I2 over raw tables: every (local, participant) to remote entry of
matched_remote_endpoint is backed by matched_local_endpoint mapping the
remote to the local, and endpoint_to_participant mapping the remote to the
participant. -/
def mreConsistentM (mre : MapNat (MapNat Nat)) (mle e2p : MapNat Nat) : Prop :=
  ∀ l sub p r, mfind? mre l = some sub → mfind? sub p = some r →
    mfind? mle r = some l ∧ mfind? e2p r = some p

/-- Auxiliary invariant: every remote handle stored in
matched_remote_endpoint was emitted by the allocator, hence is bounded by
the counter. -/
def mreBoundedM (mre : MapNat (MapNat Nat)) (c : Nat) : Prop :=
  ∀ l sub p r, mfind? mre l = some sub → mfind? sub p = some r → r ≤ c

/-- Invariant I2 of a registry state. -/
def mreConsistent (st : CryptographicBuiltin) : Prop :=
  mreConsistentM st.matched_remote_endpoint st.matched_local_endpoint
    st.endpoint_to_participant

/-- The inductive strengthening of I2 used in the preservation proof. -/
def RegistryInv (st : CryptographicBuiltin) : Prop :=
  mreConsistent st ∧ mreBoundedM st.matched_remote_endpoint st.crypto_handle_counter

theorem registryInv_of_eq (st st' : CryptographicBuiltin)
    (h1 : st'.matched_remote_endpoint = st.matched_remote_endpoint)
    (h2 : st'.matched_local_endpoint = st.matched_local_endpoint)
    (h3 : st'.endpoint_to_participant = st.endpoint_to_participant)
    (h4 : st.crypto_handle_counter ≤ st'.crypto_handle_counter)
    (h : RegistryInv st) : RegistryInv st' := by
  obtain ⟨hc, hb⟩ := h
  constructor
  · intro l sub p r hm hs
    rw [mreConsistent, h1, h2, h3] at *
    exact hc l sub p r hm hs
  · intro l sub p r hm hs
    rw [h1] at hm
    exact Nat.le_trans (hb l sub p r hm hs) h4

theorem registryInv_fresh_e2p (st st' : CryptographicBuiltin) (h v : Nat)
    (h1 : st'.matched_remote_endpoint = st.matched_remote_endpoint)
    (h2 : st'.matched_local_endpoint = st.matched_local_endpoint)
    (h3 : st'.endpoint_to_participant = minsert st.endpoint_to_participant h v)
    (h4 : st.crypto_handle_counter < h)
    (h5 : st.crypto_handle_counter ≤ st'.crypto_handle_counter)
    (hinv : RegistryInv st) : RegistryInv st' := by
  obtain ⟨hc, hb⟩ := hinv
  constructor
  · intro l sub p r hm hs
    rw [mreConsistent, h1, h2, h3] at *
    have hr := hc l sub p r hm hs
    have hbnd := hb l sub p r hm hs
    have hne : r ≠ h := by omega
    rw [mfind?_minsert, if_neg hne]
    exact hr
  · intro l sub p r hm hs
    rw [h1] at hm
    exact Nat.le_trans (hb l sub p r hm hs) h5

theorem mfind?_singleton {β : Type} (a k : Nat) (b : β) :
    mfind? [(a, b)] k = if a = k then some b else none := by
  simp [mfind?]

theorem registryInv_get_or_generate (st : CryptographicBuiltin) (rp l : Nat)
    (hinv : RegistryInv st) :
    RegistryInv (get_or_generate_matched_remote_endpoint_crypto_handle_ st rp l).2 ∧
      st.crypto_handle_counter ≤
        (get_or_generate_matched_remote_endpoint_crypto_handle_ st rp l).2.crypto_handle_counter := by
  obtain ⟨hc, hb⟩ := hinv
  unfold get_or_generate_matched_remote_endpoint_crypto_handle_
  cases hlook : (mfind? st.matched_remote_endpoint l).bind
      (fun sub => mfind? sub rp) with
  | some r => exact ⟨⟨hc, hb⟩, Nat.le_refl _⟩
  | none =>
    simp only [generate_crypto_handle_]
    cases hsub : mfind? st.matched_remote_endpoint l with
    | some sub =>
      have hnone : mfind? sub rp = none := by
        rw [hsub] at hlook
        simpa using hlook
      constructor
      · constructor
        · intro l1 sub1 p1 r1 hm hs
          simp only at hm hs ⊢
          rw [mfind?_minsert] at hm
          by_cases hl1 : l1 = l
          · subst hl1
            rw [if_pos rfl] at hm
            cases hm
            rw [mfind?_minsert] at hs
            by_cases hp1 : p1 = rp
            · subst hp1
              rw [if_pos rfl] at hs
              cases hs
              constructor
              · rw [mfind?_minsert, if_pos rfl]
              · rw [mfind?_minsert, if_pos rfl]
            · rw [if_neg hp1] at hs
              have hr := hc l1 sub p1 r1 hsub hs
              have hbnd := hb l1 sub p1 r1 hsub hs
              have hne : r1 ≠ st.crypto_handle_counter + 1 := by omega
              constructor
              · rw [mfind?_minsert, if_neg hne]; exact hr.1
              · rw [mfind?_minsert, if_neg hne]; exact hr.2
          · rw [if_neg hl1] at hm
            have hr := hc l1 sub1 p1 r1 hm hs
            have hbnd := hb l1 sub1 p1 r1 hm hs
            have hne : r1 ≠ st.crypto_handle_counter + 1 := by omega
            constructor
            · rw [mfind?_minsert, if_neg hne]; exact hr.1
            · rw [mfind?_minsert, if_neg hne]; exact hr.2
        · intro l1 sub1 p1 r1 hm hs
          simp only at hm hs ⊢
          rw [mfind?_minsert] at hm
          by_cases hl1 : l1 = l
          · subst hl1
            rw [if_pos rfl] at hm
            cases hm
            rw [mfind?_minsert] at hs
            by_cases hp1 : p1 = rp
            · subst hp1
              rw [if_pos rfl] at hs
              cases hs
              exact Nat.le_refl _
            · rw [if_neg hp1] at hs
              have hbnd := hb l1 sub p1 r1 hsub hs
              omega
          · rw [if_neg hl1] at hm
            have hbnd := hb l1 sub1 p1 r1 hm hs
            omega
      · simp
    | none =>
      constructor
      · constructor
        · intro l1 sub1 p1 r1 hm hs
          simp only at hm hs ⊢
          rw [mfind?_minsert] at hm
          by_cases hl1 : l1 = l
          · subst hl1
            rw [if_pos rfl] at hm
            cases hm
            rw [mfind?_singleton] at hs
            by_cases hp1 : rp = p1
            · subst hp1
              rw [if_pos rfl] at hs
              cases hs
              constructor
              · rw [mfind?_minsert, if_pos rfl]
              · rw [mfind?_minsert, if_pos rfl]
            · rw [if_neg hp1] at hs
              cases hs
          · rw [if_neg hl1] at hm
            have hr := hc l1 sub1 p1 r1 hm hs
            have hbnd := hb l1 sub1 p1 r1 hm hs
            have hne : r1 ≠ st.crypto_handle_counter + 1 := by omega
            constructor
            · rw [mfind?_minsert, if_neg hne]; exact hr.1
            · rw [mfind?_minsert, if_neg hne]; exact hr.2
        · intro l1 sub1 p1 r1 hm hs
          simp only at hm hs ⊢
          rw [mfind?_minsert] at hm
          by_cases hl1 : l1 = l
          · subst hl1
            rw [if_pos rfl] at hm
            cases hm
            rw [mfind?_singleton] at hs
            by_cases hp1 : rp = p1
            · subst hp1
              rw [if_pos rfl] at hs
              cases hs
              exact Nat.le_refl _
            · rw [if_neg hp1] at hs
              cases hs
          · rw [if_neg hl1] at hm
            have hbnd := hb l1 sub1 p1 r1 hm hs
            omega
      · simp

theorem mfind?_merase_subset {β : Type} (m : MapNat β) (h k : Nat) (v : β)
    (hf : mfind? (merase m h) k = some v) : mfind? m k = some v := by
  rw [mfind?_merase] at hf
  by_cases hk : k = h
  · rw [if_pos hk] at hf; cases hf
  · rwa [if_neg hk] at hf

theorem mreConsistentM_sever (mre : MapNat (MapNat Nat)) (mle e2p : MapNat Nat)
    (h p l : Nat) (sub : MapNat Nat)
    (hc : mreConsistentM mre mle e2p)
    (he : mfind? e2p h = some p)
    (hm : mfind? mle h = some l)
    (hsub : mfind? mre l = some sub) :
    mreConsistentM (minsert mre l (merase sub p)) (merase mle h) (merase e2p h) := by
  intro l1 sub1 p1 r1 h1 h2
  rw [mfind?_minsert] at h1
  by_cases hl1 : l1 = l
  · subst hl1
    rw [if_pos rfl] at h1
    cases h1
    have hp1 : p1 ≠ p := by
      intro hpp
      subst hpp
      rw [mfind?_merase, if_pos rfl] at h2
      cases h2
    rw [mfind?_merase, if_neg hp1] at h2
    have hr := hc l1 sub p1 r1 hsub h2
    have hrh : r1 ≠ h := by
      intro hrr
      subst hrr
      rw [hr.2] at he
      cases he
      exact hp1 rfl
    rw [mfind?_merase, if_neg hrh, mfind?_merase, if_neg hrh]
    exact hr
  · rw [if_neg hl1] at h1
    have hr := hc l1 sub1 p1 r1 h1 h2
    have hrh : r1 ≠ h := by
      intro hrr
      subst hrr
      rw [hr.1] at hm
      cases hm
      exact hl1 rfl
    rw [mfind?_merase, if_neg hrh, mfind?_merase, if_neg hrh]
    exact hr

theorem mreConsistentM_sever_nosub (mre : MapNat (MapNat Nat)) (mle e2p : MapNat Nat)
    (h l : Nat)
    (hc : mreConsistentM mre mle e2p)
    (hm : mfind? mle h = some l)
    (hsub : mfind? mre l = none) :
    mreConsistentM mre (merase mle h) (merase e2p h) := by
  intro l1 sub1 p1 r1 h1 h2
  have hr := hc l1 sub1 p1 r1 h1 h2
  have hrh : r1 ≠ h := by
    intro hrr
    subst hrr
    rw [hr.1] at hm
    cases hm
    rw [h1] at hsub
    cases hsub
  rw [mfind?_merase, if_neg hrh, mfind?_merase, if_neg hrh]
  exact hr

theorem mreConsistentM_local (mre mre' : MapNat (MapNat Nat)) (mle e2p : MapNat Nat)
    (h : Nat)
    (hc : mreConsistentM mre mle e2p)
    (hmle : mfind? mle h = none)
    (hsubset : ∀ l sub, mfind? mre' l = some sub → mfind? mre l = some sub) :
    mreConsistentM mre' mle (merase e2p h) := by
  intro l1 sub1 p1 r1 h1 h2
  have hr := hc l1 sub1 p1 r1 (hsubset l1 sub1 h1) h2
  have hrh : r1 ≠ h := by
    intro hrr
    subst hrr
    rw [hr.1] at hmle
    cases hmle
  rw [mfind?_merase, if_neg hrh]
  exact hr

theorem mreBoundedM_sever (mre : MapNat (MapNat Nat)) (c l p : Nat)
    (sub : MapNat Nat)
    (hb : mreBoundedM mre c)
    (hsub : mfind? mre l = some sub) :
    mreBoundedM (minsert mre l (merase sub p)) c := by
  intro l1 sub1 p1 r1 h1 h2
  rw [mfind?_minsert] at h1
  by_cases hl1 : l1 = l
  · subst hl1
    rw [if_pos rfl] at h1
    cases h1
    exact hb l1 sub p1 r1 hsub (mfind?_merase_subset sub p p1 r1 h2)
  · rw [if_neg hl1] at h1
    exact hb l1 sub1 p1 r1 h1 h2

theorem mreBoundedM_subset (mre mre' : MapNat (MapNat Nat)) (c : Nat)
    (hsubset : ∀ l sub, mfind? mre' l = some sub → mfind? mre l = some sub)
    (hb : mreBoundedM mre c) : mreBoundedM mre' c := by
  intro l1 sub1 p1 r1 h1 h2
  exact hb l1 sub1 p1 r1 (hsubset l1 sub1 h1) h2

theorem foldl_preserve {α σ : Type} (P : σ → Prop) (f : σ → α → σ)
    (hf : ∀ s a, P s → P (f s a)) (lst : List α) :
    ∀ s, P s → P (lst.foldl f s) := by
  induction lst with
  | nil => intro s h; simpa using h
  | cons a t iht =>
    intro s h
    simpa using iht _ (hf s a h)

theorem registryInv_unregister_endpoint (fuel : Nat) :
    ∀ (st : CryptographicBuiltin) (info : EndpointInfo),
      RegistryInv st → RegistryInv (unregister_endpoint_ fuel st info) := by
  induction fuel with
  | zero =>
    intro st info h
    simpa [unregister_endpoint_] using h
  | succ fuel ih =>
    intro st info hInv
    obtain ⟨hc, hb⟩ := hInv
    simp only [unregister_endpoint_]
    cases he : mfind? st.endpoint_to_participant info.crypto_handle with
    | none =>
      simp only [he]
      exact ⟨hc, hb⟩
    | some participant =>
      simp only [he]
      cases hp : mfind? st.participant_to_endpoint_info participant with
      | some s =>
        simp only [hp]
        cases hmle : mfind? st.matched_local_endpoint info.crypto_handle with
        | some localh =>
          simp only [hmle]
          cases hsubl : mfind? st.matched_remote_endpoint localh with
          | some sub =>
            simp only [hsubl]
            exact ⟨mreConsistentM_sever _ _ _ _ _ _ _ hc he hmle hsubl,
              mreBoundedM_sever _ _ _ _ _ hb hsubl⟩
          | none =>
            simp only [hsubl]
            exact ⟨mreConsistentM_sever_nosub _ _ _ _ _ hc hmle hsubl, hb⟩
        | none =>
          simp only [hmle]
          cases hsubh : mfind? st.matched_remote_endpoint info.crypto_handle with
          | some sub =>
            simp only [hsubh]
            apply foldl_preserve RegistryInv _ (fun s a h => ih s _ h)
            constructor
            · exact mreConsistentM_local _ _ _ _ _ hc hmle
                (fun l su hf => mfind?_merase_subset _ _ _ _ hf)
            · exact mreBoundedM_subset _ _ _
                (fun l su hf => mfind?_merase_subset _ _ _ _ hf) hb
          | none =>
            simp only [hsubh]
            exact ⟨mreConsistentM_local _ _ _ _ _ hc hmle (fun l su hf => hf), hb⟩
      | none =>
        simp only [hp]
        cases hmle : mfind? st.matched_local_endpoint info.crypto_handle with
        | some localh =>
          simp only [hmle]
          cases hsubl : mfind? st.matched_remote_endpoint localh with
          | some sub =>
            simp only [hsubl]
            exact ⟨mreConsistentM_sever _ _ _ _ _ _ _ hc he hmle hsubl,
              mreBoundedM_sever _ _ _ _ _ hb hsubl⟩
          | none =>
            simp only [hsubl]
            exact ⟨mreConsistentM_sever_nosub _ _ _ _ _ hc hmle hsubl, hb⟩
        | none =>
          simp only [hmle]
          cases hsubh : mfind? st.matched_remote_endpoint info.crypto_handle with
          | some sub =>
            simp only [hsubh]
            apply foldl_preserve RegistryInv _ (fun s a h => ih s _ h)
            constructor
            · exact mreConsistentM_local _ _ _ _ _ hc hmle
                (fun l su hf => mfind?_merase_subset _ _ _ _ hf)
            · exact mreBoundedM_subset _ _ _
                (fun l su hf => mfind?_merase_subset _ _ _ _ hf) hb
          | none =>
            simp only [hsubh]
            exact ⟨mreConsistentM_local _ _ _ _ _ hc hmle (fun l su hf => hf), hb⟩

theorem registryInv_register_local_participant (st : CryptographicBuiltin)
    (props : List Property) (attrs : ParticipantSecurityAttributes)
    (hInv : RegistryInv st) :
    RegistryInv (register_local_participant st props attrs).2 := by
  unfold register_local_participant
  cases hpa : parseParticipantPluginAttributes attrs.plugin_participant_attributes with
  | error e => exact hInv
  | ok pa =>
    apply registryInv_of_eq st
    · simp [insert_participant_attributes_, insert_encode_key_materials_,
        generate_crypto_handle_]
    · simp [insert_participant_attributes_, insert_encode_key_materials_,
        generate_crypto_handle_]
    · simp [insert_participant_attributes_, insert_encode_key_materials_,
        generate_crypto_handle_]
    · simp [insert_participant_attributes_, insert_encode_key_materials_,
        generate_crypto_handle_]
    · exact hInv

theorem insert_encode_mre (st : CryptographicBuiltin) (h : Nat) (k : KeyMaterialSeq) :
    (insert_encode_key_materials_ st h k).matched_remote_endpoint =
      st.matched_remote_endpoint := rfl

theorem insert_encode_mle (st : CryptographicBuiltin) (h : Nat) (k : KeyMaterialSeq) :
    (insert_encode_key_materials_ st h k).matched_local_endpoint =
      st.matched_local_endpoint := rfl

theorem insert_encode_e2p (st : CryptographicBuiltin) (h : Nat) (k : KeyMaterialSeq) :
    (insert_encode_key_materials_ st h k).endpoint_to_participant =
      st.endpoint_to_participant := rfl

theorem insert_encode_counter (st : CryptographicBuiltin) (h : Nat) (k : KeyMaterialSeq) :
    (insert_encode_key_materials_ st h k).crypto_handle_counter =
      st.crypto_handle_counter := rfl

theorem insert_pattrs_mre (st : CryptographicBuiltin) (h : Nat)
    (a : ParticipantSecurityAttributes) :
    (insert_participant_attributes_ st h a).matched_remote_endpoint =
      st.matched_remote_endpoint := rfl

theorem insert_pattrs_mle (st : CryptographicBuiltin) (h : Nat)
    (a : ParticipantSecurityAttributes) :
    (insert_participant_attributes_ st h a).matched_local_endpoint =
      st.matched_local_endpoint := rfl

theorem insert_pattrs_e2p (st : CryptographicBuiltin) (h : Nat)
    (a : ParticipantSecurityAttributes) :
    (insert_participant_attributes_ st h a).endpoint_to_participant =
      st.endpoint_to_participant := rfl

theorem insert_pattrs_counter (st : CryptographicBuiltin) (h : Nat)
    (a : ParticipantSecurityAttributes) :
    (insert_participant_attributes_ st h a).crypto_handle_counter =
      st.crypto_handle_counter := rfl

theorem insert_eattrs_mre (st : CryptographicBuiltin) (h : Nat)
    (a : EndpointSecurityAttributes) :
    (insert_endpoint_attributes_ st h a).matched_remote_endpoint =
      st.matched_remote_endpoint := rfl

theorem insert_eattrs_mle (st : CryptographicBuiltin) (h : Nat)
    (a : EndpointSecurityAttributes) :
    (insert_endpoint_attributes_ st h a).matched_local_endpoint =
      st.matched_local_endpoint := rfl

theorem insert_eattrs_e2p (st : CryptographicBuiltin) (h : Nat)
    (a : EndpointSecurityAttributes) :
    (insert_endpoint_attributes_ st h a).endpoint_to_participant =
      st.endpoint_to_participant := rfl

theorem insert_eattrs_counter (st : CryptographicBuiltin) (h : Nat)
    (a : EndpointSecurityAttributes) :
    (insert_endpoint_attributes_ st h a).crypto_handle_counter =
      st.crypto_handle_counter := rfl

theorem insert_einfo_mre (st : CryptographicBuiltin) (p : Nat) (info : EndpointInfo) :
    (insert_endpoint_info_ st p info).matched_remote_endpoint =
      st.matched_remote_endpoint := by
  unfold insert_endpoint_info_
  split <;> rfl

theorem insert_einfo_mle (st : CryptographicBuiltin) (p : Nat) (info : EndpointInfo) :
    (insert_endpoint_info_ st p info).matched_local_endpoint =
      st.matched_local_endpoint := by
  unfold insert_endpoint_info_
  split <;> rfl

theorem insert_einfo_e2p (st : CryptographicBuiltin) (p : Nat) (info : EndpointInfo) :
    (insert_endpoint_info_ st p info).endpoint_to_participant =
      st.endpoint_to_participant := by
  unfold insert_endpoint_info_
  split <;> rfl

theorem insert_einfo_counter (st : CryptographicBuiltin) (p : Nat) (info : EndpointInfo) :
    (insert_endpoint_info_ st p info).crypto_handle_counter =
      st.crypto_handle_counter := by
  unfold insert_endpoint_info_
  split <;> rfl

theorem insert_einfo_eopts (st : CryptographicBuiltin) (p : Nat) (info : EndpointInfo) :
    (insert_endpoint_info_ st p info).endpoint_encrypt_options =
      st.endpoint_encrypt_options := by
  unfold insert_endpoint_info_
  split <;> rfl

theorem registryInv_register_matched_remote_participant (st : CryptographicBuiltin)
    (lp : Nat) (hInv : RegistryInv st) :
    RegistryInv (register_matched_remote_participant st lp).2 := by
  unfold register_matched_remote_participant
  split
  · exact hInv
  · split
    · exact hInv
    · split
      · exact hInv
      · apply registryInv_of_eq st
        · simp [insert_encode_mre, generate_crypto_handle_]
        · simp [insert_encode_mle, generate_crypto_handle_]
        · simp [insert_encode_e2p, generate_crypto_handle_]
        · simp [insert_encode_counter, generate_crypto_handle_]
        · exact hInv

theorem registryInv_register_local_datawriter (st : CryptographicBuiltin)
    (pc : Nat) (props : List Property) (attrs : EndpointSecurityAttributes)
    (hInv : RegistryInv st) :
    RegistryInv (register_local_datawriter st pc props attrs).2 := by
  unfold register_local_datawriter
  split
  · exact hInv
  · split
    · apply registryInv_of_eq st
      · simp [generate_crypto_handle_]
      · simp [generate_crypto_handle_]
      · simp [generate_crypto_handle_]
      · simp [generate_crypto_handle_]
      · exact hInv
    · dsimp only
      split
      · apply registryInv_fresh_e2p st _ (st.crypto_handle_counter + 1) pc
        · simp [insert_einfo_mre, insert_eattrs_mre, insert_encode_mre,
            generate_crypto_handle_]
        · simp [insert_einfo_mle, insert_eattrs_mle, insert_encode_mle,
            generate_crypto_handle_]
        · simp [insert_einfo_e2p, insert_eattrs_e2p, insert_encode_e2p,
            generate_crypto_handle_]
        · omega
        · simp [insert_einfo_counter, insert_eattrs_counter, insert_encode_counter,
            generate_crypto_handle_]
        · exact hInv
      · apply registryInv_fresh_e2p st _ (st.crypto_handle_counter + 1) pc
        · simp [insert_einfo_mre, insert_eattrs_mre, insert_encode_mre,
            generate_crypto_handle_]
        · simp [insert_einfo_mle, insert_eattrs_mle, insert_encode_mle,
            generate_crypto_handle_]
        · simp [insert_einfo_e2p, insert_eattrs_e2p, insert_encode_e2p,
            generate_crypto_handle_]
        · omega
        · simp [insert_einfo_counter, insert_eattrs_counter, insert_encode_counter,
            generate_crypto_handle_]
          omega
        · exact hInv

theorem registryInv_register_local_datareader (st : CryptographicBuiltin)
    (pc : Nat) (props : List Property) (attrs : EndpointSecurityAttributes)
    (hInv : RegistryInv st) :
    RegistryInv (register_local_datareader st pc props attrs).2 := by
  unfold register_local_datareader
  split
  · exact hInv
  · split
    · apply registryInv_of_eq st
      · simp [generate_crypto_handle_]
      · simp [generate_crypto_handle_]
      · simp [generate_crypto_handle_]
      · simp [generate_crypto_handle_]
      · exact hInv
    · apply registryInv_fresh_e2p st _ (st.crypto_handle_counter + 1) pc
      · simp [insert_einfo_mre, insert_eattrs_mre, insert_encode_mre,
          generate_crypto_handle_]
      · simp [insert_einfo_mle, insert_eattrs_mle, insert_encode_mle,
          generate_crypto_handle_]
      · simp [insert_einfo_e2p, insert_eattrs_e2p, insert_encode_e2p,
          generate_crypto_handle_]
      · omega
      · simp [insert_einfo_counter, insert_eattrs_counter, insert_encode_counter,
          generate_crypto_handle_]
      · exact hInv

theorem registryInv_register_matched_remote_common (st : CryptographicBuiltin)
    (le rp : Nat) (kind : EndpointKind) (hInv : RegistryInv st) :
    RegistryInv (register_matched_remote_endpoint_common st le rp kind).2 := by
  unfold register_matched_remote_endpoint_common
  split
  · exact hInv
  · split
    · exact hInv
    · split
      · exact hInv
      · have hmid := registryInv_get_or_generate st rp le hInv
        apply registryInv_of_eq
          (get_or_generate_matched_remote_endpoint_crypto_handle_ st rp le).2
        · simp [insert_encode_mre, insert_eattrs_mre, insert_einfo_mre]
          split <;> simp [insert_eattrs_mre, insert_einfo_mre]
        · simp [insert_encode_mle, insert_eattrs_mle, insert_einfo_mle]
          split <;> simp [insert_eattrs_mle, insert_einfo_mle]
        · simp [insert_encode_e2p, insert_eattrs_e2p, insert_einfo_e2p]
          split <;> simp [insert_eattrs_e2p, insert_einfo_e2p]
        · simp [insert_encode_counter, insert_eattrs_counter, insert_einfo_counter]
          split <;> simp [insert_eattrs_counter, insert_einfo_counter]
        · exact hmid.1

theorem registryInv_applyRegOp (st : CryptographicBuiltin) (op : RegOp)
    (hInv : RegistryInv st) : RegistryInv (applyRegOp st op).2 := by
  cases op with
  | regLocalParticipant props attrs =>
    exact registryInv_register_local_participant st props attrs hInv
  | regMatchedRemoteParticipant lp =>
    exact registryInv_register_matched_remote_participant st lp hInv
  | regLocalDatawriter pc props attrs =>
    exact registryInv_register_local_datawriter st pc props attrs hInv
  | regLocalDatareader pc props attrs =>
    exact registryInv_register_local_datareader st pc props attrs hInv
  | regMatchedRemoteDatareader lw rp =>
    exact registryInv_register_matched_remote_common st lw rp
      EndpointKind.DataReader hInv
  | regMatchedRemoteDatawriter lr rp =>
    exact registryInv_register_matched_remote_common st lr rp
      EndpointKind.DataWriter hInv

theorem registryInv_unregister_participant (st : CryptographicBuiltin) (h : Nat)
    (hInv : RegistryInv st) : RegistryInv (unregister_participant st h).2 := by
  unfold unregister_participant
  have hInv1 : RegistryInv
      { st with participant_encrypt_options := merase st.participant_encrypt_options h } := by
    apply registryInv_of_eq st <;> first | rfl | exact Nat.le_refl _ | exact hInv
  dsimp only
  split
  · apply foldl_preserve RegistryInv _
      (fun s i hI => registryInv_unregister_endpoint (unregisterFuel s) s i hI)
    apply registryInv_of_eq
      { st with participant_encrypt_options := merase st.participant_encrypt_options h }
    · rfl
    · rfl
    · rfl
    · exact Nat.le_refl _
    · exact hInv1
  · exact hInv1

theorem registryInv_applyFactoryOp (st : CryptographicBuiltin) (op : FactoryOp)
    (hInv : RegistryInv st) : RegistryInv (applyFactoryOp st op) := by
  cases op with
  | reg r => exact registryInv_applyRegOp st r hInv
  | unregParticipant h => exact registryInv_unregister_participant st h hInv
  | unregDatawriter h =>
    exact registryInv_unregister_endpoint (unregisterFuel st) st
      (EndpointInfo.mk h EndpointKind.DataWriter) hInv
  | unregDatareader h =>
    exact registryInv_unregister_endpoint (unregisterFuel st) st
      (EndpointInfo.mk h EndpointKind.DataReader) hInv

theorem registryInv_empty : RegistryInv emptyRegistry := by
  constructor
  · intro l sub p r hm hs
    simp [emptyRegistry, mfind?] at hm
  · intro l sub p r hm hs
    simp [emptyRegistry, mfind?] at hm

theorem registryInv_runFactoryOps (ops : List FactoryOp) :
    RegistryInv (runFactoryOps emptyRegistry ops) := by
  unfold runFactoryOps
  exact foldl_preserve RegistryInv applyFactoryOp
    (fun s op hI => registryInv_applyFactoryOp s op hI) ops emptyRegistry
    registryInv_empty

/-! ## Claim theorems for the key factory -/

/-- Claim C2: starting from the empty registry, after every sequence of
public Key Factory operations (any register or unregister call), invariant
I2 holds: for every matched_remote_endpoint entry (local, participant) to
remote, matched_local_endpoint maps remote to local and
endpoint_to_participant maps remote to participant. The theorem is proved
for arbitrary call sequences, whether each call succeeds or not, which
subsumes the claim's restriction to successful calls. -/
theorem factory_preserves_matched_table_consistency (ops : List FactoryOp) :
    mreConsistent (runFactoryOps emptyRegistry ops) :=
  (registryInv_runFactoryOps ops).1

/-- Claim C3: the transformation-kind selection returns NONE whenever
is_protected is false, and otherwise selects among the four AES kinds by
(is_encrypted, use_256_bit_key) exactly as in the spec's table. -/
theorem transformation_kind_matches_policy_table :
    (∀ e k : Bool, transformation_kind_ false e k = CRYPTO_TRANSFORMATION_KIND_NONE) ∧
    transformation_kind_ true false false = CRYPTO_TRANSFORMATION_KIND_AES128_GMAC ∧
    transformation_kind_ true false true = CRYPTO_TRANSFORMATION_KIND_AES256_GMAC ∧
    transformation_kind_ true true false = CRYPTO_TRANSFORMATION_KIND_AES128_GCM ∧
    transformation_kind_ true true true = CRYPTO_TRANSFORMATION_KIND_AES256_GCM := by
  refine ⟨?_, rfl, rfl, rfl, rfl⟩
  intro e k
  cases e <;> cases k <;> rfl

/-- Whether a result value is a success. -/
def exceptIsOk {ε α : Type} : Except ε α → Bool
  | Except.ok _ => true
  | Except.error _ => false

/-- Equality of the eight registry tables (everything except the private
handle counter). -/
def sameTables (a b : CryptographicBuiltin) : Prop :=
  a.encode_key_materials = b.encode_key_materials ∧
  a.decode_key_materials = b.decode_key_materials ∧
  a.participant_encrypt_options = b.participant_encrypt_options ∧
  a.endpoint_encrypt_options = b.endpoint_encrypt_options ∧
  a.participant_to_endpoint_info = b.participant_to_endpoint_info ∧
  a.endpoint_to_participant = b.endpoint_to_participant ∧
  a.matched_remote_endpoint = b.matched_remote_endpoint ∧
  a.matched_local_endpoint = b.matched_local_endpoint

/-- The property list that marks a builtin volatile message secure writer. -/
def volatileWriterProps : List Property :=
  [Property.mk ("dds.sec.builtin_endpoint_name")
    ("BuiltinParticipantVolatileMessageSecureWriter")]

/-- Endpoint attributes whose plugin mask parses successfully. -/
def plainEndpointAttrs : EndpointSecurityAttributes :=
  { is_submessage_protected := false,
    is_payload_protected := false,
    plugin_endpoint_attributes := 1 }

/-- Claim C1 counterexample: register_local_datawriter called on the empty
registry with volatile-endpoint properties returns an error, yet the
post-call registry differs from the pre-call registry: the handle counter
was incremented before the volatile rejection. -/
theorem failed_registration_changes_registry :
    exceptIsOk (register_local_datawriter emptyRegistry 1 volatileWriterProps
      plainEndpointAttrs).1 = false ∧
    (register_local_datawriter emptyRegistry 1 volatileWriterProps
      plainEndpointAttrs).2 ≠ emptyRegistry := by
  constructor
  · decide
  · decide

/-- Claim C1, amended: whenever a public registration operation returns an
error, the eight registry tables are unchanged; the handle counter however
may advance, because register_local_datawriter and register_local_datareader
allocate the handle before the volatile-endpoint rejection. -/
theorem failed_registration_leaves_tables (st : CryptographicBuiltin) (op : RegOp)
    (herr : exceptIsOk (applyRegOp st op).1 = false) :
    sameTables st (applyRegOp st op).2 := by
  cases op with
  | regLocalParticipant props attrs =>
    revert herr
    dsimp only [applyRegOp]
    unfold register_local_participant
    split
    · intro h2
      exact ⟨rfl, rfl, rfl, rfl, rfl, rfl, rfl, rfl⟩
    · intro h2
      simp [exceptIsOk] at h2
  | regMatchedRemoteParticipant lp =>
    revert herr
    dsimp only [applyRegOp]
    unfold register_matched_remote_participant
    split
    · intro h2
      exact ⟨rfl, rfl, rfl, rfl, rfl, rfl, rfl, rfl⟩
    · split
      · intro h2
        exact ⟨rfl, rfl, rfl, rfl, rfl, rfl, rfl, rfl⟩
      · split
        · intro h2
          exact ⟨rfl, rfl, rfl, rfl, rfl, rfl, rfl, rfl⟩
        · intro h2
          simp [exceptIsOk] at h2
  | regLocalDatawriter pc props attrs =>
    revert herr
    dsimp only [applyRegOp]
    unfold register_local_datawriter
    split
    · intro h2
      exact ⟨rfl, rfl, rfl, rfl, rfl, rfl, rfl, rfl⟩
    · split
      · intro h2
        exact ⟨rfl, rfl, rfl, rfl, rfl, rfl, rfl, rfl⟩
      · intro h2
        simp [exceptIsOk] at h2
  | regLocalDatareader pc props attrs =>
    revert herr
    dsimp only [applyRegOp]
    unfold register_local_datareader
    split
    · intro h2
      exact ⟨rfl, rfl, rfl, rfl, rfl, rfl, rfl, rfl⟩
    · split
      · intro h2
        exact ⟨rfl, rfl, rfl, rfl, rfl, rfl, rfl, rfl⟩
      · intro h2
        simp [exceptIsOk] at h2
  | regMatchedRemoteDatareader lw rp =>
    revert herr
    dsimp only [applyRegOp]
    unfold register_matched_remote_datareader
      register_matched_remote_endpoint_common
    split
    · intro h2
      exact ⟨rfl, rfl, rfl, rfl, rfl, rfl, rfl, rfl⟩
    · split
      · intro h2
        exact ⟨rfl, rfl, rfl, rfl, rfl, rfl, rfl, rfl⟩
      · split
        · intro h2
          exact ⟨rfl, rfl, rfl, rfl, rfl, rfl, rfl, rfl⟩
        · intro h2
          simp [exceptIsOk] at h2
  | regMatchedRemoteDatawriter lr rp =>
    revert herr
    dsimp only [applyRegOp]
    unfold register_matched_remote_datawriter
      register_matched_remote_endpoint_common
    split
    · intro h2
      exact ⟨rfl, rfl, rfl, rfl, rfl, rfl, rfl, rfl⟩
    · split
      · intro h2
        exact ⟨rfl, rfl, rfl, rfl, rfl, rfl, rfl, rfl⟩
      · split
        · intro h2
          exact ⟨rfl, rfl, rfl, rfl, rfl, rfl, rfl, rfl⟩
        · intro h2
          simp [exceptIsOk] at h2

/-- Witness for the amended claim C1, at the concrete volatile-rejection
input: the call errs and the tables are unchanged. -/
theorem failed_registration_leaves_tables_witness :
    exceptIsOk (applyRegOp emptyRegistry
      (RegOp.regLocalDatawriter 1 volatileWriterProps plainEndpointAttrs)).1 = false ∧
    sameTables emptyRegistry (applyRegOp emptyRegistry
      (RegOp.regLocalDatawriter 1 volatileWriterProps plainEndpointAttrs)).2 :=
  ⟨by decide,
    failed_registration_leaves_tables emptyRegistry
      (RegOp.regLocalDatawriter 1 volatileWriterProps plainEndpointAttrs) (by decide)⟩

theorem insert_encode_eopts (st : CryptographicBuiltin) (h : Nat) (k : KeyMaterialSeq) :
    (insert_encode_key_materials_ st h k).endpoint_encrypt_options =
      st.endpoint_encrypt_options := rfl

theorem insert_einfo_encode (st : CryptographicBuiltin) (p : Nat) (info : EndpointInfo) :
    (insert_endpoint_info_ st p info).encode_key_materials =
      st.encode_key_materials := by
  unfold insert_endpoint_info_
  split <;> rfl

theorem insert_eattrs_encode (st : CryptographicBuiltin) (h : Nat)
    (a : EndpointSecurityAttributes) :
    (insert_endpoint_attributes_ st h a).encode_key_materials =
      st.encode_key_materials := rfl

theorem gog_existing (st : CryptographicBuiltin) (rp l h : Nat)
    (hmre : (mfind? st.matched_remote_endpoint l).bind
      (fun sub => mfind? sub rp) = some h) :
    get_or_generate_matched_remote_endpoint_crypto_handle_ st rp l = (h, st) := by
  unfold get_or_generate_matched_remote_endpoint_crypto_handle_
  rw [hmre]

theorem gog_encode (st : CryptographicBuiltin) (rp l : Nat) :
    (get_or_generate_matched_remote_endpoint_crypto_handle_ st rp l).2.encode_key_materials =
      st.encode_key_materials := by
  unfold get_or_generate_matched_remote_endpoint_crypto_handle_
  split
  · rfl
  · dsimp only
    split <;> rfl

theorem gog_eopts (st : CryptographicBuiltin) (rp l : Nat) :
    (get_or_generate_matched_remote_endpoint_crypto_handle_ st rp l).2.endpoint_encrypt_options =
      st.endpoint_encrypt_options := by
  unfold get_or_generate_matched_remote_endpoint_crypto_handle_
  split
  · rfl
  · dsimp only
    split <;> rfl

theorem gog_entry (st : CryptographicBuiltin) (rp l : Nat) :
    (mfind? (get_or_generate_matched_remote_endpoint_crypto_handle_ st rp l).2.matched_remote_endpoint l).bind
        (fun sub => mfind? sub rp) =
      some (get_or_generate_matched_remote_endpoint_crypto_handle_ st rp l).1 := by
  unfold get_or_generate_matched_remote_endpoint_crypto_handle_
  cases hlook : (mfind? st.matched_remote_endpoint l).bind
      (fun sub => mfind? sub rp) with
  | some r => exact hlook
  | none =>
    dsimp only
    split
    · rw [mfind?_minsert_self]
      simp [mfind?_minsert_self]
    · rw [mfind?_minsert_self]
      simp [mfind?_singleton]

theorem get_encode_of_find (st : CryptographicBuiltin) (h : Nat) (km : KeyMaterialSeq)
    (hf : mfind? st.encode_key_materials h = some km) :
    get_encode_key_materials_ st h = Except.ok km := by
  unfold get_encode_key_materials_
  rw [hf]

theorem find_of_get_encode (st : CryptographicBuiltin) (h : Nat) (km : KeyMaterialSeq)
    (hg : get_encode_key_materials_ st h = Except.ok km) :
    mfind? st.encode_key_materials h = some km := by
  unfold get_encode_key_materials_ at hg
  split at hg
  · cases hg
    assumption
  · cases hg

theorem common_existing_entry (st : CryptographicBuiltin) (le rp h : Nat)
    (kind : EndpointKind) (km : KeyMaterialSeq) (attrs : EndpointSecurityAttributes)
    (pea : BuiltinPluginEndpointSecurityAttributes)
    (hmre : (mfind? st.matched_remote_endpoint le).bind
      (fun sub => mfind? sub rp) = some h)
    (henc : mfind? st.encode_key_materials le = some km)
    (hopt : mfind? st.endpoint_encrypt_options le = some attrs)
    (hpa : parseEndpointPluginAttributes attrs.plugin_endpoint_attributes =
      Except.ok pea) :
    (register_matched_remote_endpoint_common st le rp kind).1 = Except.ok h ∧
    (register_matched_remote_endpoint_common st le rp kind).2.matched_remote_endpoint =
      st.matched_remote_endpoint ∧
    mfind? (register_matched_remote_endpoint_common st le rp kind).2.encode_key_materials h =
      some (generate_receiver_specific_key_ km pea.is_submessage_origin_authenticated h) := by
  unfold register_matched_remote_endpoint_common
  rw [get_encode_of_find st le km henc, hopt]
  dsimp only
  rw [hpa]
  dsimp only
  rw [gog_existing st rp le h hmre]
  dsimp only
  rw [insert_einfo_eopts, hopt]
  dsimp only
  refine ⟨rfl, ?_, ?_⟩
  · rw [insert_encode_mre, insert_eattrs_mre, insert_einfo_mre]
  · rw [show (insert_encode_key_materials_
      (insert_endpoint_attributes_
        (insert_endpoint_info_ st rp (EndpointInfo.mk h kind)) h attrs) h
      (generate_receiver_specific_key_ km pea.is_submessage_origin_authenticated h)).encode_key_materials =
      minsert (insert_endpoint_attributes_
        (insert_endpoint_info_ st rp (EndpointInfo.mk h kind)) h attrs).encode_key_materials h
      (generate_receiver_specific_key_ km pea.is_submessage_origin_authenticated h) from rfl]
    rw [mfind?_minsert_self]

theorem common_success_facts (st : CryptographicBuiltin) (le rp h : Nat)
    (kind : EndpointKind) (st1 : CryptographicBuiltin)
    (hc : register_matched_remote_endpoint_common st le rp kind =
      (Except.ok h, st1)) :
    ∃ attrs pea,
      mfind? st1.endpoint_encrypt_options le = some attrs ∧
      parseEndpointPluginAttributes attrs.plugin_endpoint_attributes =
        Except.ok pea ∧
      (∃ km1, mfind? st1.encode_key_materials le = some km1) ∧
      (mfind? st1.matched_remote_endpoint le).bind
        (fun sub => mfind? sub rp) = some h := by
  unfold register_matched_remote_endpoint_common at hc
  cases hkm : get_encode_key_materials_ st le with
  | error e =>
    rw [hkm] at hc
    simp at hc
  | ok km =>
    rw [hkm] at hc
    dsimp only at hc
    cases hopt : mfind? st.endpoint_encrypt_options le with
    | none =>
      rw [hopt] at hc
      simp at hc
    | some attrs =>
      rw [hopt] at hc
      dsimp only at hc
      cases hpa : parseEndpointPluginAttributes attrs.plugin_endpoint_attributes with
      | error e =>
        rw [hpa] at hc
        simp at hc
      | ok pea =>
        rw [hpa] at hc
        dsimp only at hc
        rw [insert_einfo_eopts, gog_eopts, hopt] at hc
        dsimp only at hc
        injection hc with hc1 hc2
        injection hc1 with hc1
        refine ⟨attrs, pea, ?_, hpa, ?_, ?_⟩
        · rw [← hc2, insert_encode_eopts]
          rw [show (insert_endpoint_attributes_ _ _ attrs).endpoint_encrypt_options =
            minsert (insert_endpoint_info_
              (get_or_generate_matched_remote_endpoint_crypto_handle_ st rp le).2 rp
              (EndpointInfo.mk (get_or_generate_matched_remote_endpoint_crypto_handle_ st rp le).1 kind)).endpoint_encrypt_options
              (get_or_generate_matched_remote_endpoint_crypto_handle_ st rp le).1 attrs from rfl]
          rw [insert_einfo_eopts, gog_eopts, mfind?_minsert]
          split
          · rfl
          · rw [hopt]
        · rw [← hc2]
          rw [show (insert_encode_key_materials_ _ _ _).encode_key_materials =
            minsert (insert_endpoint_attributes_ (insert_endpoint_info_
              (get_or_generate_matched_remote_endpoint_crypto_handle_ st rp le).2 rp
              (EndpointInfo.mk (get_or_generate_matched_remote_endpoint_crypto_handle_ st rp le).1 kind))
              (get_or_generate_matched_remote_endpoint_crypto_handle_ st rp le).1 attrs).encode_key_materials
              (get_or_generate_matched_remote_endpoint_crypto_handle_ st rp le).1
              (generate_receiver_specific_key_ km pea.is_submessage_origin_authenticated
                (get_or_generate_matched_remote_endpoint_crypto_handle_ st rp le).1) from rfl]
          rw [mfind?_minsert]
          split
          · exact ⟨_, rfl⟩
          · rw [insert_eattrs_encode, insert_einfo_encode, gog_encode]
            exact ⟨km, find_of_get_encode st le km hkm⟩
        · rw [← hc2, insert_encode_mre, insert_eattrs_mre, insert_einfo_mre, ← hc1]
          exact gog_entry st rp le

/-- Decidable equality for Except values. -/
def exceptDecEq {e a : Type} [DecidableEq e] [DecidableEq a] :
    (x y : Except e a) -> Decidable (x = y)
  | Except.ok x, Except.ok y =>
    if h : x = y then Decidable.isTrue (by rw [h])
    else Decidable.isFalse (by intro hh; injection hh; contradiction)
  | Except.ok _, Except.error _ => Decidable.isFalse (fun hh => Except.noConfusion hh)
  | Except.error _, Except.ok _ => Decidable.isFalse (fun hh => Except.noConfusion hh)
  | Except.error x, Except.error y =>
    if h : x = y then Decidable.isTrue (by rw [h])
    else Decidable.isFalse (by intro hh; injection hh; contradiction)

instance {e a : Type} [DecidableEq e] [DecidableEq a] : DecidableEq (Except e a) :=
  exceptDecEq

/-- Number of entries of matched_remote_endpoint[l]. -/
def mreEntryCount (st : CryptographicBuiltin) (l : Nat) : Nat :=
  ((mfind? st.matched_remote_endpoint l).getD []).length

/-- Claim C4: for every registry state in which a first
register_matched_remote_datareader(local, remote_p) call succeeded
returning handle h, a second call with the same pair returns the same
handle h, and matched_remote_endpoint[local] has the same number of entries
after the second call as after the first (indeed the whole
matched_remote_endpoint table is unchanged by the second call). -/
theorem repeated_matched_remote_datareader_idempotent
    (st : CryptographicBuiltin) (lw rp h : Nat) (st1 : CryptographicBuiltin)
    (hfirst : register_matched_remote_datareader st lw rp = (Except.ok h, st1)) :
    (register_matched_remote_datareader st1 lw rp).1 = Except.ok h ∧
    (register_matched_remote_datareader st1 lw rp).2.matched_remote_endpoint =
      st1.matched_remote_endpoint ∧
    mreEntryCount (register_matched_remote_datareader st1 lw rp).2 lw =
      mreEntryCount st1 lw := by
  unfold register_matched_remote_datareader at hfirst ⊢
  obtain ⟨attrs, pea, hopt1, hpa1, ⟨km1, henc1⟩, hmre1⟩ :=
    common_success_facts st lw rp h EndpointKind.DataReader st1 hfirst
  have hmain := common_existing_entry st1 lw rp h EndpointKind.DataReader km1
    attrs pea hmre1 henc1 hopt1 hpa1
  refine ⟨hmain.1, hmain.2.1, ?_⟩
  rw [mreEntryCount, mreEntryCount, hmain.2.1]

/-- A base key material record used in concrete witnesses. -/
def baseKeyMaterial : KeyMaterial_AES_GCM_GMAC :=
  generate_key_material_ 2 CRYPTO_TRANSFORMATION_KIND_NONE

/-- A registry holding a local datawriter 2 ready for remote matching. -/
def matchedBaseRegistry : CryptographicBuiltin :=
  { emptyRegistry with
    crypto_handle_counter := 10,
    encode_key_materials := [(2, KeyMaterialSeq.One baseKeyMaterial)],
    endpoint_encrypt_options := [(2, plainEndpointAttrs)] }

/-- Witness for claim C4 at a concrete registry: the first call returns
handle 11 and the repeated call returns 11 again. -/
theorem repeated_matched_remote_datareader_idempotent_witness :
    (register_matched_remote_datareader
      (register_matched_remote_datareader matchedBaseRegistry 2 3).2 2 3).1 =
      Except.ok 11 :=
  (repeated_matched_remote_datareader_idempotent matchedBaseRegistry 2 3 11
    (register_matched_remote_datareader matchedBaseRegistry 2 3).2 (by decide)).1

/-- Claim C10: when register_matched_remote_datareader (side true) or
register_matched_remote_datawriter (side false) is called while the
(local, remote participant) pair already has a remote handle h, the call
succeeds with the same h and unconditionally overwrites
encode_key_materials[h] with a sequence rederived from the local endpoint's
current encode key materials; its records carry
receiver_specific_key_id = h and a fresh key of the first record's kind
when submessage origin authentication is enabled, and
receiver_specific_key_id = 0 with an empty key otherwise. -/
theorem second_matched_remote_rederives_receiver_keys (side : Bool)
    (st : CryptographicBuiltin) (le rp h : Nat) (km : KeyMaterialSeq)
    (attrs : EndpointSecurityAttributes)
    (pea : BuiltinPluginEndpointSecurityAttributes)
    (hmre : (mfind? st.matched_remote_endpoint le).bind
      (fun sub => mfind? sub rp) = some h)
    (henc : mfind? st.encode_key_materials le = some km)
    (hopt : mfind? st.endpoint_encrypt_options le = some attrs)
    (hpa : parseEndpointPluginAttributes attrs.plugin_endpoint_attributes =
      Except.ok pea) :
    (if side then register_matched_remote_datareader st le rp
      else register_matched_remote_datawriter st le rp).1 = Except.ok h ∧
    mfind? (if side then register_matched_remote_datareader st le rp
      else register_matched_remote_datawriter st le rp).2.encode_key_materials h =
      some (generate_receiver_specific_key_ km
        pea.is_submessage_origin_authenticated h) ∧
    ∀ rec ∈ (generate_receiver_specific_key_ km
        pea.is_submessage_origin_authenticated h).records,
      rec.receiver_specific_key_id =
        (if pea.is_submessage_origin_authenticated then h else 0) ∧
      rec.master_receiver_specific_key =
        (if pea.is_submessage_origin_authenticated then
          keygen km.keyMaterial.transformation_kind else []) := by
  have hrec : ∀ rec ∈ (generate_receiver_specific_key_ km
      pea.is_submessage_origin_authenticated h).records,
      rec.receiver_specific_key_id =
        (if pea.is_submessage_origin_authenticated then h else 0) ∧
      rec.master_receiver_specific_key =
        (if pea.is_submessage_origin_authenticated then
          keygen km.keyMaterial.transformation_kind else []) := by
    cases hauth : pea.is_submessage_origin_authenticated <;> cases km <;>
      simp [generate_receiver_specific_key_,
        KeyMaterialSeq.addMasterReceiverSpecificKey, KeyMaterialSeq.records,
        KeyMaterialSeq.keyMaterial]
  cases side with
  | false =>
    have hmain := common_existing_entry st le rp h EndpointKind.DataWriter km
      attrs pea hmre henc hopt hpa
    exact ⟨hmain.1, hmain.2.2, hrec⟩
  | true =>
    have hmain := common_existing_entry st le rp h EndpointKind.DataReader km
      attrs pea hmre henc hopt hpa
    exact ⟨hmain.1, hmain.2.2, hrec⟩

/-- Endpoint attributes with a valid mask and submessage origin
authentication enabled (bits 0 and 3). -/
def authEndpointAttrs : EndpointSecurityAttributes :=
  { is_submessage_protected := true,
    is_payload_protected := false,
    plugin_endpoint_attributes := 9 }

/-- A registry where local endpoint 2 is already matched with remote
participant 3 through remote endpoint handle 7. -/
def rematchRegistry : CryptographicBuiltin :=
  { emptyRegistry with
    crypto_handle_counter := 10,
    encode_key_materials := [(2, KeyMaterialSeq.One baseKeyMaterial)],
    endpoint_encrypt_options := [(2, authEndpointAttrs)],
    matched_remote_endpoint := [(2, [(3, 7)])],
    matched_local_endpoint := [(7, 2)],
    endpoint_to_participant := [(7, 3)] }

/-- Witness for claim C10 at a concrete registry with origin
authentication on: the repeated registration returns the existing handle 7
and stores the rederived receiver-specific sequence under it. -/
theorem second_matched_remote_rederives_receiver_keys_witness :
    (register_matched_remote_datareader rematchRegistry 2 3).1 = Except.ok 7 ∧
    mfind? (register_matched_remote_datareader rematchRegistry 2 3).2.encode_key_materials 7 =
      some (generate_receiver_specific_key_ (KeyMaterialSeq.One baseKeyMaterial) true 7) := by
  have happ := second_matched_remote_rederives_receiver_keys true rematchRegistry
    2 3 7 (KeyMaterialSeq.One baseKeyMaterial) authEndpointAttrs
    (BuiltinPluginEndpointSecurityAttributes.mk false false true)
    (by decide) (by decide) (by decide) (by decide)
  exact ⟨happ.1, happ.2.1⟩

/-! ## Crypto header conversion (builtin_types.rs) -/

/-- CryptoTransformIdentifier: the 4-octet wire kind tag plus a 32-bit
key id. -/
structure CryptoTransformIdentifier where
  transformation_kind : List Nat
  transformation_key_id : Nat
deriving DecidableEq

/-- CryptoHeader: a transform identifier and the plugin-specific extra
octets (the PluginCryptoHeaderExtra wrapper is a plain octet vector). -/
structure CryptoHeader where
  transformation_id : CryptoTransformIdentifier
  plugin_crypto_header_extra : List Nat
deriving DecidableEq

/-- BuiltinCryptoTransformIdentifier. -/
structure BuiltinCryptoTransformIdentifier where
  transformation_kind : BuiltinCryptoTransformationKind
  transformation_key_id : Nat
deriving DecidableEq

/-- BuiltinCryptoHeader: transform identifier, 4-octet session id and
8-octet initialization vector suffix. -/
structure BuiltinCryptoHeader where
  transform_identifier : BuiltinCryptoTransformIdentifier
  session_id : List Nat
  initialization_vector_suffix : List Nat
deriving DecidableEq

/-- Outcome of the TryFrom CryptoHeader conversion; out-of-range slicing
in the Rust source is a panic, recorded as a distinct outcome. -/
inductive HeaderConversionOutcome where
  | ok (h : BuiltinCryptoHeader)
  | err (e : SecurityError)
  | panicked
deriving DecidableEq

/-- The length diagnostic of the crypto header decoder. -/
def headerLengthMsg (n : Nat) : String :=
  "plugin_crypto_header_extra was of length " ++ toString n ++ ". Expected 12."

/-- TryFrom CryptoHeader for BuiltinCryptoHeader: the Rust code eagerly
slices the extra as extra[..4] and extra[4..], which panics when the extra
is shorter than 4 octets; otherwise an invalid kind tag yields its error,
a non-12-octet extra yields the length error, and a valid 12-octet header
splits into the 4-octet session id and 8-octet suffix. -/
def builtinCryptoHeaderTryFrom (ch : CryptoHeader) : HeaderConversionOutcome :=
  let extra := ch.plugin_crypto_header_extra
  if extra.length < 4 then HeaderConversionOutcome.panicked
  else
    match transformationKindFromTag ch.transformation_id.transformation_kind with
    | Except.error e => HeaderConversionOutcome.err e
    | Except.ok kind =>
      if extra.length = 12 then
        HeaderConversionOutcome.ok
          (BuiltinCryptoHeader.mk
            (BuiltinCryptoTransformIdentifier.mk kind
              ch.transformation_id.transformation_key_id)
            (extra.take 4) (extra.drop 4))
      else
        HeaderConversionOutcome.err (SecurityError.mk (headerLengthMsg extra.length))

/-- A crypto header with a valid kind tag but a 2-octet extra. -/
def shortExtraHeader : CryptoHeader :=
  CryptoHeader.mk (CryptoTransformIdentifier.mk [0, 0, 0, 1] 5) [0, 0]

/-- Claim C7 counterexample: a CryptoHeader whose extra has 2 octets makes
the conversion panic (out-of-range slice), rather than return an error
value quoting the length as the claim states. -/
theorem crypto_header_short_extra_panics :
    builtinCryptoHeaderTryFrom shortExtraHeader = HeaderConversionOutcome.panicked ∧
    ∀ e : SecurityError,
      builtinCryptoHeaderTryFrom shortExtraHeader ≠ HeaderConversionOutcome.err e := by
  have h0 : builtinCryptoHeaderTryFrom shortExtraHeader =
      HeaderConversionOutcome.panicked := by decide
  refine ⟨h0, ?_⟩
  intro e he
  rw [h0] at he
  exact HeaderConversionOutcome.noConfusion he

/-- Claim C7, amended: the conversion panics when the extra has fewer than
4 octets; with at least 4 octets, a valid kind tag and a length other than
12 it returns the error quoting the observed length (an invalid kind tag
takes precedence and yields the kind error instead); with a valid tag and
exactly 12 octets it succeeds, splitting the extra into the first 4 octets
(session id) and last 8 octets (initialization vector suffix). -/
theorem crypto_header_conversion_amended (tid : CryptoTransformIdentifier)
    (extra : List Nat) :
    (extra.length < 4 →
      builtinCryptoHeaderTryFrom (CryptoHeader.mk tid extra) =
        HeaderConversionOutcome.panicked) ∧
    (∀ kind, 4 ≤ extra.length → extra.length ≠ 12 →
      transformationKindFromTag tid.transformation_kind = Except.ok kind →
      builtinCryptoHeaderTryFrom (CryptoHeader.mk tid extra) =
        HeaderConversionOutcome.err
          (SecurityError.mk (headerLengthMsg extra.length))) ∧
    (∀ kind, extra.length = 12 →
      transformationKindFromTag tid.transformation_kind = Except.ok kind →
      builtinCryptoHeaderTryFrom (CryptoHeader.mk tid extra) =
        HeaderConversionOutcome.ok (BuiltinCryptoHeader.mk
          (BuiltinCryptoTransformIdentifier.mk kind tid.transformation_key_id)
          (extra.take 4) (extra.drop 4))) := by
  refine ⟨?_, ?_, ?_⟩
  · intro hlt
    unfold builtinCryptoHeaderTryFrom
    rw [if_pos hlt]
  · intro kind h4 h12 hk
    unfold builtinCryptoHeaderTryFrom
    dsimp only
    rw [if_neg (by omega), hk]
    dsimp only
    rw [if_neg h12]
  · intro kind h12 hk
    unfold builtinCryptoHeaderTryFrom
    dsimp only
    rw [if_neg (by omega), hk]
    dsimp only
    rw [if_pos h12]

/-- Witness for the amended claim C7 at three concrete headers: a 2-octet
extra panics, a 5-octet extra with a valid tag yields the length error
quoting 5, and a 12-octet extra splits into session id and suffix. -/
theorem crypto_header_conversion_amended_witness :
    builtinCryptoHeaderTryFrom (CryptoHeader.mk
        (CryptoTransformIdentifier.mk [0, 0, 0, 1] 5) [1, 2]) =
      HeaderConversionOutcome.panicked ∧
    builtinCryptoHeaderTryFrom (CryptoHeader.mk
        (CryptoTransformIdentifier.mk [0, 0, 0, 1] 5) [1, 2, 3, 4, 5]) =
      HeaderConversionOutcome.err (SecurityError.mk (headerLengthMsg 5)) ∧
    builtinCryptoHeaderTryFrom (CryptoHeader.mk
        (CryptoTransformIdentifier.mk [0, 0, 0, 1] 5)
        [1, 2, 3, 4, 5, 6, 7, 8, 9, 10, 11, 12]) =
      HeaderConversionOutcome.ok (BuiltinCryptoHeader.mk
        (BuiltinCryptoTransformIdentifier.mk
          CRYPTO_TRANSFORMATION_KIND_AES128_GMAC 5)
        ([1, 2, 3, 4, 5, 6, 7, 8, 9, 10, 11, 12].take 4)
        ([1, 2, 3, 4, 5, 6, 7, 8, 9, 10, 11, 12].drop 4)) :=
  ⟨(crypto_header_conversion_amended
      (CryptoTransformIdentifier.mk [0, 0, 0, 1] 5) [1, 2]).1 (by decide),
   (crypto_header_conversion_amended
      (CryptoTransformIdentifier.mk [0, 0, 0, 1] 5) [1, 2, 3, 4, 5]).2.1
      CRYPTO_TRANSFORMATION_KIND_AES128_GMAC (by decide) (by decide) rfl,
   (crypto_header_conversion_amended
      (CryptoTransformIdentifier.mk [0, 0, 0, 1] 5)
      [1, 2, 3, 4, 5, 6, 7, 8, 9, 10, 11, 12]).2.2
      CRYPTO_TRANSFORMATION_KIND_AES128_GMAC (by decide) rfl⟩

/-! ## Key material CDR codec and token adapter (builtin_types.rs; the CDR
serializer itself lives in the serialization module, outside the given
sources, and is modelled from the spec: big-endian 32-bit integers,
length-prefixed octet vectors, the kind as its 4-octet tag) -/

/-- Modelled from the spec: big-endian encoding of a 32-bit integer. -/
def u32BE (n : Nat) : List Nat :=
  [n / 16777216 % 256, n / 65536 % 256, n / 256 % 256, n % 256]

/-- Big-endian value of a byte list. -/
def beVal (l : List Nat) : Nat :=
  l.foldl (fun acc x => acc * 256 + x) 0

theorem beVal_u32BE (n : Nat) (h : n < 4294967296) : beVal (u32BE n) = n := by
  simp [u32BE, beVal]
  omega

/-- Read n bytes from the front of a stream. -/
def readBytes (n : Nat) (s : List Nat) : Option (List Nat × List Nat) :=
  if n ≤ s.length then some (s.take n, s.drop n) else none

/-- Read a big-endian 32-bit integer from the front of a stream. -/
def readU32 (s : List Nat) : Option (Nat × List Nat) :=
  match readBytes 4 s with
  | some (b, rest) => some (beVal b, rest)
  | none => none

theorem readBytes_exact (l r : List Nat) : readBytes l.length (l ++ r) = some (l, r) := by
  unfold readBytes
  rw [if_pos (by simp)]
  simp

theorem readBytes_all (l : List Nat) : readBytes l.length l = some (l, []) := by
  unfold readBytes
  rw [if_pos (Nat.le_refl _)]
  simp

theorem readU32_exact (n : Nat) (r : List Nat) (h : n < 4294967296) :
    readU32 (u32BE n ++ r) = some (n, r) := by
  unfold readU32
  rw [show (4 : Nat) = (u32BE n).length from by simp [u32BE], readBytes_exact]
  dsimp only
  rw [beVal_u32BE n h]

theorem transformationKindTag_length (kind : BuiltinCryptoTransformationKind) :
    (transformationKindTag kind).length = 4 := by
  cases kind <;> rfl

theorem transformationKindFromTag_tag (kind : BuiltinCryptoTransformationKind) :
    transformationKindFromTag (transformationKindTag kind) = Except.ok kind := by
  cases kind <;> rfl

/-- Modelled from the spec: the canonical big-endian CDR serialization of a
Serializable_KeyMaterial_AES_GCM_GMAC record. -/
def serializeKeyMaterial (k : KeyMaterial_AES_GCM_GMAC) : List Nat :=
  transformationKindTag k.transformation_kind ++
  (u32BE k.master_salt.length ++ (k.master_salt ++
  (u32BE k.sender_key_id ++ (u32BE k.master_sender_key.length ++
  (k.master_sender_key ++ (u32BE k.receiver_specific_key_id ++
  (u32BE k.master_receiver_specific_key.length ++
  k.master_receiver_specific_key)))))))

/-- Modelled from the spec: CDR deserialization of a key material record;
an unknown transformation tag produces the InvalidTransformationKind
error. -/
def deserializeKeyMaterial (s : List Nat) :
    Except SecurityError KeyMaterial_AES_GCM_GMAC :=
  match readBytes 4 s with
  | none => Except.error (SecurityError.mk ("Error deserializing KeyMaterial_AES_GCM_GMAC"))
  | some (tag, s1) =>
    match transformationKindFromTag tag with
    | Except.error e => Except.error e
    | Except.ok kind =>
      match readU32 s1 with
      | none => Except.error (SecurityError.mk ("Error deserializing KeyMaterial_AES_GCM_GMAC"))
      | some (saltLen, s2) =>
        match readBytes saltLen s2 with
        | none => Except.error (SecurityError.mk ("Error deserializing KeyMaterial_AES_GCM_GMAC"))
        | some (salt, s3) =>
          match readU32 s3 with
          | none => Except.error (SecurityError.mk ("Error deserializing KeyMaterial_AES_GCM_GMAC"))
          | some (senderKeyId, s4) =>
            match readU32 s4 with
            | none => Except.error (SecurityError.mk ("Error deserializing KeyMaterial_AES_GCM_GMAC"))
            | some (senderKeyLen, s5) =>
              match readBytes senderKeyLen s5 with
              | none => Except.error (SecurityError.mk ("Error deserializing KeyMaterial_AES_GCM_GMAC"))
              | some (senderKey, s6) =>
                match readU32 s6 with
                | none => Except.error (SecurityError.mk ("Error deserializing KeyMaterial_AES_GCM_GMAC"))
                | some (receiverKeyId, s7) =>
                  match readU32 s7 with
                  | none => Except.error (SecurityError.mk ("Error deserializing KeyMaterial_AES_GCM_GMAC"))
                  | some (receiverKeyLen, s8) =>
                    match readBytes receiverKeyLen s8 with
                    | none => Except.error (SecurityError.mk ("Error deserializing KeyMaterial_AES_GCM_GMAC"))
                    | some (receiverKey, _) =>
                      Except.ok
                        { transformation_kind := kind,
                          master_salt := salt,
                          sender_key_id := senderKeyId,
                          master_sender_key := senderKey,
                          receiver_specific_key_id := receiverKeyId,
                          master_receiver_specific_key := receiverKey }

theorem deserialize_serialize_keyMaterial (k : KeyMaterial_AES_GCM_GMAC)
    (hsalt : k.master_salt.length < 4294967296)
    (hsid : k.sender_key_id < 4294967296)
    (hskey : k.master_sender_key.length < 4294967296)
    (hrid : k.receiver_specific_key_id < 4294967296)
    (hrkey : k.master_receiver_specific_key.length < 4294967296) :
    deserializeKeyMaterial (serializeKeyMaterial k) = Except.ok k := by
  unfold serializeKeyMaterial deserializeKeyMaterial
  rw [show (4 : Nat) = (transformationKindTag k.transformation_kind).length from
    (transformationKindTag_length k.transformation_kind).symm]
  rw [readBytes_exact]
  dsimp only
  rw [transformationKindFromTag_tag]
  dsimp only
  rw [readU32_exact _ _ hsalt]
  dsimp only
  rw [readBytes_exact]
  dsimp only
  rw [readU32_exact _ _ hsid]
  dsimp only
  rw [readU32_exact _ _ hskey]
  dsimp only
  rw [readBytes_exact]
  dsimp only
  rw [readU32_exact _ _ hrid]
  dsimp only
  rw [readU32_exact _ _ hrkey]
  dsimp only
  rw [readBytes_all]

/-- BinaryProperty: a named octet value with a propagate flag. -/
structure BinaryProperty where
  name : String
  value : List Nat
  propagate : Bool
deriving DecidableEq

/-- DataHolder: the generic tagged container of the token form. -/
structure DataHolder where
  class_id : String
  properties : List Property
  binary_properties : List BinaryProperty
deriving DecidableEq

/-- CryptoToken: a DataHolder wrapper. -/
structure CryptoToken where
  data_holder : DataHolder
deriving DecidableEq

/-- The builtin crypto token class id. -/
def cryptoTokenClassId : String := "DDS:Crypto:AES_GCM_GMAC"

/-- The name of the single binary property of a builtin crypto token. -/
def cryptoTokenKeymatName : String := "dds.cryp.keymat"

/-- TryFrom BuiltinCryptoToken for CryptoToken: the builtin class id, an
empty property list and a single binary property carrying the CDR-encoded
key material. -/
def cryptoTokenFromKeyMaterial (k : KeyMaterial_AES_GCM_GMAC) : CryptoToken :=
  CryptoToken.mk (DataHolder.mk cryptoTokenClassId []
    [BinaryProperty.mk cryptoTokenKeymatName (serializeKeyMaterial k) true])

/-- TryFrom CryptoToken for BuiltinCryptoToken composed with the key
material extraction: closed-world validation of the class id, property
emptiness, binary-property cardinality and name, then CDR deserialization
of the carried key material. -/
def keyMaterialFromCryptoToken (t : CryptoToken) :
    Except SecurityError KeyMaterial_AES_GCM_GMAC :=
  let dh := t.data_holder
  if dh.class_id = cryptoTokenClassId then
    match dh.properties, dh.binary_properties with
    | [], [bp0] =>
      if bp0.name = cryptoTokenKeymatName then
        deserializeKeyMaterial bp0.value
      else
        Except.error (SecurityError.mk ("The binary property of CryptoToken has the wrong name."))
    | [], _ =>
      Except.error (SecurityError.mk ("CryptoToken has wrong binary_properties. Expected exactly 1 binary property."))
    | _, _ =>
      Except.error (SecurityError.mk ("CryptoToken has wrong properties. Expected properties to be empty."))
  else
    Except.error (SecurityError.mk ("CryptoToken has wrong class_id."))

/-- Claim C8: for every well-formed key material record (builtin
transformation kind; field sizes within 32 bits so the CDR length prefixes
are faithful), converting it into a crypto token and back yields exactly
the same record: same transformation kind, master_salt, sender_key_id,
master_sender_key, receiver_specific_key_id and
master_receiver_specific_key. -/
theorem key_material_token_roundtrip (k : KeyMaterial_AES_GCM_GMAC)
    (hsalt : k.master_salt.length < 4294967296)
    (hsid : k.sender_key_id < 4294967296)
    (hskey : k.master_sender_key.length < 4294967296)
    (hrid : k.receiver_specific_key_id < 4294967296)
    (hrkey : k.master_receiver_specific_key.length < 4294967296) :
    keyMaterialFromCryptoToken (cryptoTokenFromKeyMaterial k) = Except.ok k := by
  unfold keyMaterialFromCryptoToken cryptoTokenFromKeyMaterial
  dsimp only
  rw [if_pos rfl, if_pos rfl]
  exact deserialize_serialize_keyMaterial k hsalt hsid hskey hrid hrkey

/-- A small concrete key material record. -/
def sampleKeyMaterial : KeyMaterial_AES_GCM_GMAC :=
  { transformation_kind := CRYPTO_TRANSFORMATION_KIND_AES256_GCM,
    master_salt := [1, 2, 3],
    sender_key_id := 9,
    master_sender_key := [4, 5],
    receiver_specific_key_id := 7,
    master_receiver_specific_key := [6] }

/-- Witness for claim C8 at a concrete key material record. -/
theorem key_material_token_roundtrip_witness :
    keyMaterialFromCryptoToken (cryptoTokenFromKeyMaterial sampleKeyMaterial) =
      Except.ok sampleKeyMaterial :=
  key_material_token_roundtrip sampleKeyMaterial (by decide) (by decide)
    (by decide) (by decide) (by decide)

/-! ## RTPS DATA submessage codec (data.rs; EntityId, SequenceNumber,
ParameterList and SerializedPayload live outside the given sources and are
modelled from the spec: entity ids are 4 raw octets, the sequence number
is 8 raw octets (high and low words), a parameter list is serialized as a
4-octet little-endian byte-length prefix covering itself followed by the
parameter octets, and SerializedPayload::from_bytes captures the given
octets; the speedy primitive readers and writers are little-endian) -/

/-- Submessage header flags relevant to the DATA submessage. -/
structure DataFlags where
  inline_qos : Bool
  data : Bool
  key : Bool
deriving DecidableEq

/-- Modelled from the spec: an entity id, as its 4 raw octets. -/
structure EntityId where
  bytes : List Nat
deriving DecidableEq

/-- Modelled from the spec: a writer sequence number, as its 8 raw octets
(high and low signed 32-bit words). -/
structure SequenceNumber where
  bytes : List Nat
deriving DecidableEq

/-- Modelled from the spec: a parameter list, as the octets following its
4-octet length prefix. -/
structure ParameterList where
  parameters : List Nat
deriving DecidableEq

/-- Modelled from the spec: a serialized payload, as raw octets. -/
structure SerializedPayload where
  bytes : List Nat
deriving DecidableEq

/-- The DATA submessage structure from data.rs. -/
structure Data where
  reader_id : EntityId
  writer_id : EntityId
  writer_sn : SequenceNumber
  inline_qos : Option ParameterList
  serialized_payload : SerializedPayload
deriving DecidableEq

/-- The ways deserialize_data aborts; all three are panics in the Rust
source (slice range violation, unwrap of a failed parse, and the
unimplemented macro). -/
inductive DeserFail
  | sliceOutOfRange
  | unwrapFailed
  | unimplementedReached
deriving DecidableEq

/-- Rust slice indexing buffer[a..b]: panics (error) when the range is
invalid. -/
def sliceE (buf : List Nat) (a b : Nat) : Except DeserFail (List Nat) :=
  if a ≤ b ∧ b ≤ buf.length then Except.ok ((buf.drop a).take (b - a))
  else Except.error DeserFail.sliceOutOfRange

/-- Little-endian u16 of the first two octets. -/
def u16LEofList (l : List Nat) : Nat :=
  match l with
  | a :: b :: _ => a + 256 * b
  | _ => 0

/-- Little-endian u32 of the first four octets. -/
def u32LEofList (l : List Nat) : Nat :=
  match l with
  | a :: b :: c :: d :: _ => a + 256 * b + 65536 * c + 16777216 * d
  | _ => 0

/-- Little-endian 2-octet encoding of a u16. -/
def u16LEbytes (n : Nat) : List Nat := [n % 256, n / 256 % 256]

/-- Little-endian 4-octet encoding of a u32. -/
def u32LEbytes (n : Nat) : List Nat :=
  [n % 256, n / 256 % 256, n / 65536 % 256, n / 16777216 % 256]

/-- Modelled from the spec: ParameterList serialization, a 4-octet length
prefix counting the whole list followed by the parameter octets. -/
def plToBytes (pl : ParameterList) : List Nat :=
  u32LEbytes (4 + pl.parameters.length) ++ pl.parameters

/-- Modelled from the spec: ParameterList::read_from_buffer on a slice
whose length must equal the encoded length prefix. -/
def plReadFromBuffer (b : List Nat) : Option ParameterList :=
  if 4 ≤ b.length ∧ u32LEofList b = b.length then
    some (ParameterList.mk (b.drop 4))
  else none

/-- The inline-QoS stage of deserialize_data: read the 4-octet length at
offset o (the raw octetsToInlineQos value), then parse the parameter list
from buffer[o .. o + length]; parse failure is an unwrap panic. -/
def readInlineQos (buffer : List Nat) (o : Nat) : Except DeserFail ParameterList :=
  match sliceE buffer o (o + 4) with
  | Except.error e => Except.error e
  | Except.ok lenBytes =>
    match sliceE buffer o (o + u32LEofList lenBytes) with
    | Except.error e => Except.error e
    | Except.ok plBytes =>
      match plReadFromBuffer plBytes with
      | some pl => Except.ok pl
      | none => Except.error DeserFail.unwrapFailed

/-- The payload stage of deserialize_data: without inline QoS the payload
starts at o + 4; with inline QoS the QoS length is re-read at offset o and
the payload starts at o + 4 + length. -/
def readPayload (buffer : List Nat) (o : Nat) (expect_qos : Bool) :
    Except DeserFail SerializedPayload :=
  if expect_qos then
    match sliceE buffer o (o + 4) with
    | Except.error e => Except.error e
    | Except.ok lenBytes =>
      match sliceE buffer (o + 4 + u32LEofList lenBytes) buffer.length with
      | Except.error e => Except.error e
      | Except.ok pb => Except.ok (SerializedPayload.mk pb)
  else
    match sliceE buffer (o + 4) buffer.length with
    | Except.error e => Except.error e
    | Except.ok pb => Except.ok (SerializedPayload.mk pb)

/-- Data::deserialize_data from data.rs: read extraFlags and
octetsToInlineQos, slice the fixed fields, parse inline QoS at offset
octetsToInlineQos when the InlineQos flag is set, then the payload when
the Data flag is set; without the Data flag the code reaches the
unimplemented macro. -/
def deserialize_data (buffer : List Nat) (flags : DataFlags) :
    Except DeserFail Data :=
  match sliceE buffer 0 2 with
  | Except.error e => Except.error e
  | Except.ok _extra_flags =>
    match sliceE buffer 2 4 with
    | Except.error e => Except.error e
    | Except.ok otiqBytes =>
      let octets_to_inline_qos := u16LEofList otiqBytes
      match sliceE buffer 4 8 with
      | Except.error e => Except.error e
      | Except.ok reader_id_bytes =>
        match sliceE buffer 8 12 with
        | Except.error e => Except.error e
        | Except.ok writer_id_bytes =>
          match sliceE buffer 12 20 with
          | Except.error e => Except.error e
          | Except.ok sn_bytes =>
            match (if flags.inline_qos then
                match readInlineQos buffer octets_to_inline_qos with
                | Except.error e => Except.error e
                | Except.ok pl => Except.ok (some pl)
              else Except.ok none) with
            | Except.error e => Except.error e
            | Except.ok inline_qos_ =>
              match (if flags.data then
                  readPayload buffer octets_to_inline_qos flags.inline_qos
                else Except.error DeserFail.unimplementedReached) with
              | Except.error e => Except.error e
              | Except.ok payload =>
                Except.ok (Data.mk (EntityId.mk reader_id_bytes)
                  (EntityId.mk writer_id_bytes) (SequenceNumber.mk sn_bytes)
                  inline_qos_ payload)

/-- Data's Writable implementation (write_to) from data.rs: extraFlags 0,
then, in place of octetsToInlineQos, the parameter list itself when inline
QoS is present and non-empty (otherwise the sentinel 16); then the fixed
fields; then the parameter list again when present and non-empty; then the
payload. -/
def writeData (d : Data) : List Nat :=
  [0, 0] ++
  (match d.inline_qos with
   | some pl => if pl.parameters.length > 0 then plToBytes pl else u16LEbytes 16
   | none => u16LEbytes 16) ++
  d.reader_id.bytes ++ d.writer_id.bytes ++ d.writer_sn.bytes ++
  (match d.inline_qos with
   | some pl => if pl.parameters.length > 0 then plToBytes pl else []
   | none => []) ++
  d.serialized_payload.bytes

/-- Flags with InlineQos and Data set. -/
def qosDataFlags : DataFlags := DataFlags.mk true true false

/-- A DATA body with octetsToInlineQos 16, a parameter list placed at
offset 16 (an empty list, length prefix 4), a non-empty parameter list
sitting at offset 20 = 4 + 16, and one payload octet. -/
def c6Buffer : List Nat :=
  [0, 0, 16, 0, 1, 2, 3, 4, 5, 6, 7, 8, 9, 10, 11, 12, 4, 0, 0, 0, 5, 0, 0, 0, 9]

/-- Claim C6 failing input: deserialize_data performs no bounds check and
parses the ParameterList at byte offset octetsToInlineQos itself, not at
base = 4 + octetsToInlineQos: on c6Buffer (octetsToInlineQos = 16) it
succeeds returning the empty parameter list found at offset 16, although
the parameter list starting at offset 20 = 4 + 16 is the non-empty [9]. -/
theorem inline_qos_read_at_octets_not_base :
    deserialize_data c6Buffer qosDataFlags =
      Except.ok (Data.mk (EntityId.mk [1, 2, 3, 4]) (EntityId.mk [5, 6, 7, 8])
        (SequenceNumber.mk [9, 10, 11, 12, 4, 0, 0, 0])
        (some (ParameterList.mk [])) (SerializedPayload.mk [9])) ∧
    readInlineQos c6Buffer (4 + 16) = Except.ok (ParameterList.mk [9]) ∧
    some (ParameterList.mk ([] : List Nat)) ≠ some (ParameterList.mk [9]) :=
  ⟨by decide, by decide, by decide⟩

/-- A valid DATA body with inline QoS at offset 20 (octetsToInlineQos =
20, matching where the code reads it), a non-empty one-octet parameter
list and a three-octet payload. -/
def c5Buffer : List Nat :=
  [0, 0, 20, 0, 1, 2, 3, 4, 5, 6, 7, 8, 9, 10, 11, 12, 13, 14, 15, 16,
   5, 0, 0, 0, 170, 0, 0, 0, 0, 1, 2, 3]

/-- The structure deserialize_data yields on c5Buffer. -/
def c5Data : Data :=
  Data.mk (EntityId.mk [1, 2, 3, 4]) (EntityId.mk [5, 6, 7, 8])
    (SequenceNumber.mk [9, 10, 11, 12, 13, 14, 15, 16])
    (some (ParameterList.mk [170])) (SerializedPayload.mk [1, 2, 3])

/-- Claim C5 failing input: deserialize_data parses c5Buffer (InlineQos
and Data flags, non-empty parameter list) into c5Data, but serializing
c5Data produces a byte string on which deserialize_data with the same
flags aborts (slice range panic) instead of re-parsing to c5Data: write_to
emits the parameter list in place of the octetsToInlineQos field. -/
theorem data_roundtrip_fails_for_inline_qos :
    deserialize_data c5Buffer qosDataFlags = Except.ok c5Data ∧
    c5Data.inline_qos = some (ParameterList.mk [170]) ∧
    deserialize_data (writeData c5Data) qosDataFlags =
      Except.error DeserFail.sliceOutOfRange :=
  ⟨by decide, rfl, by decide⟩

/-- Claim C9 counterexample: a 20-octet buffer with neither the Data nor
the Key flag makes deserialize_data abort (it reaches the unimplemented
macro) instead of completing without failure. -/
theorem no_data_flag_counterexample :
    (List.replicate 20 (0 : Nat)).length = 20 ∧
    exceptIsOk (deserialize_data (List.replicate 20 (0 : Nat))
      (DataFlags.mk false false false)) = false :=
  ⟨by decide, by decide⟩

/-- Claim C9, amended: for every buffer and every flag set without the
Data flag (whatever the Key flag), deserialize_data never completes
successfully: the branch taken when Data is absent reaches the
unimplemented macro (and earlier stages can only abort, never succeed). -/
theorem no_data_flag_never_succeeds (buffer : List Nat) (flags : DataFlags)
    (hdata : flags.data = false) :
    exceptIsOk (deserialize_data buffer flags) = false := by
  obtain ⟨fq, fd, fk⟩ := flags
  dsimp only at hdata
  subst hdata
  unfold deserialize_data
  dsimp only
  cases h1 : sliceE buffer 0 2 with
  | error e => rfl
  | ok x1 =>
    cases h2 : sliceE buffer 2 4 with
    | error e => rfl
    | ok x2 =>
      cases h3 : sliceE buffer 4 8 with
      | error e => rfl
      | ok x3 =>
        cases h4 : sliceE buffer 8 12 with
        | error e => rfl
        | ok x4 =>
          cases h5 : sliceE buffer 12 20 with
          | error e => rfl
          | ok x5 =>
            cases fq with
            | false => rfl
            | true =>
              cases h6 : readInlineQos buffer (u16LEofList x2) with
              | error e => simp [h6, exceptIsOk]
              | ok pl => simp [h6, exceptIsOk]

/-- Witness for the amended claim C9 at a concrete 20-octet buffer with
the InlineQos flag set but no Data flag. -/
theorem no_data_flag_never_succeeds_witness :
    exceptIsOk (deserialize_data
      [0, 0, 0, 0, 0, 0, 0, 0, 0, 0, 0, 0, 0, 0, 0, 0, 0, 0, 0, 0]
      (DataFlags.mk true false false)) = false :=
  no_data_flag_never_succeeds
    [0, 0, 0, 0, 0, 0, 0, 0, 0, 0, 0, 0, 0, 0, 0, 0, 0, 0, 0, 0]
    (DataFlags.mk true false false) rfl
